import Mathlib

/-!
ur5_simple_pick_and_place: the pick-and-place script as a trace of service calls.

Embedding of `src/pick_and_place_collision_depth_camera.cpp`.

The program is one straight-line `main`.  Every statement of it is a call into the
ROS / MoveIt libraries, so `main` is embedded by explicit state passing: the state is
the ordered trace of calls issued so far together with the local variables of `main`
(`collision_object`, `target_pose1`, `success`, `my_plan`, `my_plan_gripper`, the
allowed-collision matrix reached through the reference `acm`).  Whatever the libraries
hand back to the script (the planning frame, the preset joint values, the current pose
of `ee_link`, the eight replies of `plan`) is read from an environment `Env`.

Decimal literals of the source are read as exact rationals (`ℚ`), message types are
records with the zero defaults of the generated ROS message constructors.
-/

namespace PickAndPlace

/-! ## Message types -/

/-- Position part of `geometry_msgs::Pose`; the generated constructor zeroes it. -/
structure Point where
  x : ℚ := 0
  y : ℚ := 0
  z : ℚ := 0
  deriving DecidableEq

/-- Orientation part of `geometry_msgs::Pose`; the generated constructor zeroes it. -/
structure Quaternion where
  x : ℚ := 0
  y : ℚ := 0
  z : ℚ := 0
  w : ℚ := 0
  deriving DecidableEq

/-- Record `geometry_msgs::Pose`. -/
structure Pose where
  position : Point := {}
  orientation : Quaternion := {}
  deriving DecidableEq

/-- Record `geometry_msgs::PoseStamped`, as returned by `getCurrentPose`. -/
structure PoseStamped where
  frame_id : String := ""
  pose : Pose := {}
  deriving DecidableEq

/-- Shape tags of `shape_msgs::SolidPrimitive`; `UNSET` is the value 0 of a fresh message. -/
inductive PrimitiveType where
  | UNSET
  | BOX
  | SPHERE
  | CYLINDER
  | CONE
  deriving DecidableEq

/-- Record `shape_msgs::SolidPrimitive`. -/
structure SolidPrimitive where
  type : PrimitiveType := PrimitiveType.UNSET
  dimensions : List ℚ := []
  deriving DecidableEq

/-- Operation tags of `moveit_msgs::CollisionObject`; `ADD` is the value 0 of a fresh message. -/
inductive Operation where
  | ADD
  | REMOVE
  | APPEND
  | MOVE
  deriving DecidableEq

/-- Record `moveit_msgs::CollisionObject` (the fields the script touches). -/
structure CollisionObject where
  frame_id : String := ""
  id : String := ""
  primitives : List SolidPrimitive := []
  primitive_poses : List Pose := []
  operation : Operation := Operation.ADD
  deriving DecidableEq

/-- Record `moveit_msgs::AttachedCollisionObject`. -/
structure AttachedCollisionObject where
  link_name : String := ""
  object : CollisionObject := {}
  touch_links : List String := []
  deriving DecidableEq

/-- Joint values of a named preset (`std::map<std::string, double>`). -/
abbrev JointValues := List (String × ℚ)

/-- Value of `MoveGroupInterface::Plan`: the trajectory that `plan` writes into its argument. -/
structure Plan where
  trajectory : List (List ℚ) := []
  deriving DecidableEq

/-- Value `val` of a `MoveItErrorCode`. -/
abbrev MoveItErrorCode := Int

/-- Constant `MoveItErrorCode::SUCCESS`. -/
def SUCCESS : MoveItErrorCode := 1

/-! ## The allowed-collision matrix -/

/-- Matrix `collision_detection::AllowedCollisionMatrix`: the entries set so far, newest first. -/
structure AllowedCollisionMatrix where
  entries : List ((String × String) × Bool) := []
  deriving DecidableEq

/-- Call `acm.setEntry(name1, name2, allowed)`: the pair is recorded under both orders. -/
def AllowedCollisionMatrix.setEntry (acm : AllowedCollisionMatrix) (name1 name2 : String)
    (allowed : Bool) : AllowedCollisionMatrix :=
  { entries := ((name1, name2), allowed) :: ((name2, name1), allowed) ::
      acm.entries.filter (fun e => decide (e.1 ≠ (name1, name2) ∧ e.1 ≠ (name2, name1))) }

/-- Call `acm.getEntry(name1, name2)`: the recorded value of the pair, when it has one. -/
def AllowedCollisionMatrix.getEntry (acm : AllowedCollisionMatrix) (name1 name2 : String) :
    Option Bool :=
  (acm.entries.find? (fun e => decide (e.1 = (name1, name2)))).map Prod.snd

/-- Message `moveit_msgs::PlanningScene` as read back by `getPlanningSceneDiffMsg`: the script
edits only the allowed-collision matrix of the locked scene, so the message is represented by
the matrix it carries. -/
structure PlanningScene where
  is_diff : Bool := false
  allowed_collision_matrix : AllowedCollisionMatrix := {}
  deriving DecidableEq

/-! ## Calls issued by the script -/

/-- One call of the script into ROS / MoveIt, with the arguments it is given.  The constructors
`removeEntry` and `execute` belong to the interface of the libraries but are never issued by
`main`; `unlockSceneWrite` is what the destructor of `LockedPlanningSceneRW` does. -/
inductive Call where
  | rosInit (name : String)
  | nodeHandle
  | asyncSpinner (threads : Nat)
  | spinnerStart
  | moveGroupInterface (group : String)
  | planningSceneInterface
  | robotModelLoader (description : String)
  | planningSceneMonitor
  | getPlanningFrame (group : String)
  | applyCollisionObjects (objects : List CollisionObject)
  | rosInfo (text : String)
  | sleep (seconds : ℚ)
  | lockSceneWrite
  | getAllowedCollisionMatrixNonConst
  | setEntry (name1 name2 : String) (allowed : Bool)
  | removeEntry (name1 name2 : String)
  | cout (text : String)
  | acmPrint
  | getPlanningSceneDiffMsg
  | applyPlanningScene (scene : PlanningScene)
  | getJointModelGroupNames (group : String)
  | getNamedTargetValues (group : String) (name : String)
  | setJointValueTarget (group : String) (values : JointValues)
  | setPoseTarget (group : String) (pose : Pose)
  | plan (group : String)
  | move (group : String)
  | execute (group : String) (plan : Plan)
  | getCurrentPose (group : String) (link : String)
  | applyAttachedCollisionObject (aco : AttachedCollisionObject)
  | removeCollisionObjects (object_ids : List String)
  | rosShutdown
  | unlockSceneWrite
  deriving DecidableEq

/-! ## What the libraries hand back -/

/-- Reply of one `plan(p)` call: the returned error code and the value left in `p`. -/
structure PlanReply where
  code : MoveItErrorCode
  plan : Plan

/-- Everything the script reads from the libraries. -/
structure Env where
  planningFrame : String
  initialMatrix : AllowedCollisionMatrix
  jointModelGroupNames : List String
  namedTargetValues : String → String → JointValues
  currentPose : PoseStamped
  planReply : Fin 8 → PlanReply

/-- Local state of `main`: the calls issued so far and the variables of the function (each
is set to its fresh value again where the source declares it). -/
structure MainState where
  trace : List Call := []
  acm : AllowedCollisionMatrix := {}
  collision_object : CollisionObject := {}
  diff_scene : PlanningScene := {}
  current_pose : PoseStamped := {}
  target_pose1 : Pose := {}
  success : Bool := false
  my_plan : Plan := {}
  my_plan_gripper : Plan := {}
  aco : AttachedCollisionObject := {}
  object_ids : List String := []

/-- Record one call at the end of the trace. -/
def MainState.emit (s : MainState) (c : Call) : MainState :=
  { s with trace := s.trace ++ [c] }

/-! ## The script -/

/-- Constant `PLANNING_GROUP_ARM`. -/
def PLANNING_GROUP_ARM : String := "ur5_arm"

/-- Constant `PLANNING_GROUP_GRIPPER`. -/
def PLANNING_GROUP_GRIPPER : String := "gripper"

/-- Text of `ROS_INFO_NAMED("tutorial", "Visualizing plan 1 (pose goal) %s", success ? "" : "FAILED")`. -/
def statusLine (success : Bool) : String :=
  "Visualizing plan 1 (pose goal) " ++ (if success then "" else "FAILED")

/-- Output of `std::copy(names.begin(), names.end(), std::ostream_iterator<std::string>(std::cout, ", "))`. -/
def copyToCout (names : List String) : String :=
  String.join (names.map (fun s => s ++ ", "))

/-- Lines 11-34 of `main`: node, spinner, the two move groups, the scene interface and the
script's own planning scene monitor. -/
def startUp (s : MainState) : MainState :=
  let s := s.emit (Call.rosInit "move_group_interface_tutorial")
  let s := s.emit Call.nodeHandle
  let s := s.emit (Call.asyncSpinner 1)
  let s := s.emit Call.spinnerStart
  let s := s.emit (Call.moveGroupInterface PLANNING_GROUP_ARM)
  let s := s.emit (Call.moveGroupInterface PLANNING_GROUP_GRIPPER)
  let s := s.emit Call.planningSceneInterface
  let s := s.emit (Call.robotModelLoader "robot_description")
  s.emit Call.planningSceneMonitor

/-- Lines 42-47 of `main`: the local `primitive`. -/
def primitive : SolidPrimitive :=
  let p : SolidPrimitive := {}
  let p : SolidPrimitive := { p with type := PrimitiveType.BOX }
  let p : SolidPrimitive := { p with dimensions := List.replicate 3 0 }
  let p : SolidPrimitive := { p with dimensions := p.dimensions.set 0 0.06 }
  let p : SolidPrimitive := { p with dimensions := p.dimensions.set 1 0.06 }
  { p with dimensions := p.dimensions.set 2 0.06 }

/-- Lines 49-53 of `main`: the local `box_pose`. -/
def box_pose : Pose :=
  let b : Pose := {}
  let b : Pose := { b with orientation := { b.orientation with w := 1.0 } }
  let b : Pose := { b with position := { b.position with x := 0.3 } }
  let b : Pose := { b with position := { b.position with y := 0.5 } }
  { b with position := { b.position with z := 1.045 - 1.21 } }

/-- Lines 36-66 of `main`: add the object to be grasped to the planning scene. -/
def addObject (env : Env) (s : MainState) : MainState :=
  let s : MainState := { s with collision_object := {} }
  let s := s.emit (Call.getPlanningFrame PLANNING_GROUP_ARM)
  let s : MainState :=
    { s with collision_object := { s.collision_object with frame_id := env.planningFrame } }
  let s : MainState := { s with collision_object := { s.collision_object with id := "blue_box" } }
  let s : MainState := { s with collision_object :=
    { s.collision_object with primitives := s.collision_object.primitives ++ [primitive] } }
  let s : MainState := { s with collision_object :=
    { s.collision_object with primitive_poses := s.collision_object.primitive_poses ++ [box_pose] } }
  let s : MainState :=
    { s with collision_object := { s.collision_object with operation := Operation.ADD } }
  let collision_objects : List CollisionObject := []
  let collision_objects : List CollisionObject := collision_objects ++ [s.collision_object]
  let s := s.emit (Call.applyCollisionObjects collision_objects)
  let s := s.emit (Call.rosInfo "Add an object into the world")
  s.emit (Call.sleep 0.1)

/-- Lines 68-80 of `main`: allow collisions between the gripper and the box.  The lock `ls`
is taken here; it is a local of `main` and no block closes around it. -/
def allowCollisions (env : Env) (s : MainState) : MainState :=
  let s := s.emit Call.lockSceneWrite
  let s := s.emit Call.getAllowedCollisionMatrixNonConst
  let s : MainState := { s with acm := env.initialMatrix }
  let s := s.emit (Call.setEntry "blue_box" "robotiq_85_left_finger_tip_link" true)
  let s : MainState :=
    { s with acm := s.acm.setEntry "blue_box" "robotiq_85_left_finger_tip_link" true }
  let s := s.emit (Call.setEntry "blue_box" "robotiq_85_right_finger_tip_link" true)
  let s : MainState :=
    { s with acm := s.acm.setEntry "blue_box" "robotiq_85_right_finger_tip_link" true }
  let s := s.emit (Call.cout "\nAllowedCollisionMatrix:\n")
  let s := s.emit Call.acmPrint
  let s : MainState := { s with diff_scene := {} }
  let s := s.emit Call.getPlanningSceneDiffMsg
  let s : MainState :=
    { s with diff_scene := { s.diff_scene with is_diff := true, allowed_collision_matrix := s.acm } }
  let s := s.emit (Call.applyPlanningScene s.diff_scene)
  s.emit (Call.sleep 0.1)

/-- Lines 82-85 of `main`: print the planning groups of the robot. -/
def listGroups (env : Env) (s : MainState) : MainState :=
  let s := s.emit (Call.rosInfo "Available Planning Groups:")
  let s := s.emit (Call.getJointModelGroupNames PLANNING_GROUP_ARM)
  let s := s.emit (Call.getJointModelGroupNames PLANNING_GROUP_ARM)
  s.emit (Call.cout (copyToCout env.jointModelGroupNames))

/-- Lines 89-96 of `main`: 1. Move to home position. -/
def step1 (env : Env) (s : MainState) : MainState :=
  let s : MainState := { s with my_plan := {} }
  let s := s.emit (Call.getNamedTargetValues PLANNING_GROUP_ARM "home")
  let s := s.emit (Call.setJointValueTarget PLANNING_GROUP_ARM
    (env.namedTargetValues PLANNING_GROUP_ARM "home"))
  let s := s.emit (Call.plan PLANNING_GROUP_ARM)
  let s : MainState := { s with my_plan := (env.planReply 0).plan }
  let s : MainState := { s with success := decide ((env.planReply 0).code = SUCCESS) }
  let s := s.emit (Call.rosInfo (statusLine s.success))
  s.emit (Call.move PLANNING_GROUP_ARM)

/-- Lines 98-114 of `main`: 2. Place the TCP above the blue box. -/
def step2 (env : Env) (s : MainState) : MainState :=
  let s := s.emit (Call.getCurrentPose PLANNING_GROUP_ARM "ee_link")
  let s : MainState := { s with current_pose := env.currentPose }
  let s : MainState := { s with target_pose1 := {} }
  let s : MainState :=
    { s with target_pose1 := { s.target_pose1 with orientation := s.current_pose.pose.orientation } }
  let s : MainState := { s with target_pose1 :=
    { s.target_pose1 with position := { s.target_pose1.position with x := 0.3 } } }
  let s : MainState := { s with target_pose1 :=
    { s.target_pose1 with position := { s.target_pose1.position with y := 0.5 } } }
  let s : MainState := { s with target_pose1 :=
    { s.target_pose1 with position := { s.target_pose1.position with z := 0.2 } } }
  let s := s.emit (Call.setPoseTarget PLANNING_GROUP_ARM s.target_pose1)
  let s := s.emit (Call.plan PLANNING_GROUP_ARM)
  let s : MainState := { s with my_plan := (env.planReply 1).plan }
  let s : MainState := { s with success := decide ((env.planReply 1).code = SUCCESS) }
  let s := s.emit (Call.rosInfo (statusLine s.success))
  s.emit (Call.move PLANNING_GROUP_ARM)

/-- Lines 117-126 of `main`: 3. Open the gripper. -/
def step3 (env : Env) (s : MainState) : MainState :=
  let s : MainState := { s with my_plan_gripper := {} }
  let s := s.emit (Call.getNamedTargetValues PLANNING_GROUP_GRIPPER "open")
  let s := s.emit (Call.setJointValueTarget PLANNING_GROUP_GRIPPER
    (env.namedTargetValues PLANNING_GROUP_GRIPPER "open"))
  let s := s.emit (Call.plan PLANNING_GROUP_GRIPPER)
  let s : MainState := { s with my_plan_gripper := (env.planReply 2).plan }
  let s : MainState := { s with success := decide ((env.planReply 2).code = SUCCESS) }
  let s := s.emit (Call.rosInfo (statusLine s.success))
  s.emit (Call.move PLANNING_GROUP_GRIPPER)

/-- Lines 128-136 of `main`: 4. Move the TCP close to the object. -/
def step4 (env : Env) (s : MainState) : MainState :=
  let s : MainState := { s with target_pose1 := { s.target_pose1 with
    position := { s.target_pose1.position with z := s.target_pose1.position.z - 0.2 } } }
  let s := s.emit (Call.setPoseTarget PLANNING_GROUP_ARM s.target_pose1)
  let s := s.emit (Call.plan PLANNING_GROUP_ARM)
  let s : MainState := { s with my_plan := (env.planReply 3).plan }
  let s : MainState := { s with success := decide ((env.planReply 3).code = SUCCESS) }
  let s := s.emit (Call.rosInfo (statusLine s.success))
  s.emit (Call.move PLANNING_GROUP_ARM)

/-- Lines 138-145 of `main`: 5. Close the gripper. -/
def step5 (env : Env) (s : MainState) : MainState :=
  let s := s.emit (Call.getNamedTargetValues PLANNING_GROUP_GRIPPER "closed")
  let s := s.emit (Call.setJointValueTarget PLANNING_GROUP_GRIPPER
    (env.namedTargetValues PLANNING_GROUP_GRIPPER "closed"))
  let s := s.emit (Call.plan PLANNING_GROUP_GRIPPER)
  let s : MainState := { s with my_plan_gripper := (env.planReply 4).plan }
  let s : MainState := { s with success := decide ((env.planReply 4).code = SUCCESS) }
  let s := s.emit (Call.rosInfo (statusLine s.success))
  s.emit (Call.move PLANNING_GROUP_GRIPPER)

/-- Lines 147-153 of `main`: attach the box to the gripper after it was grasped. -/
def attachObject (s : MainState) : MainState :=
  let s : MainState := { s with aco := {} }
  let s : MainState :=
    { s with aco := { s.aco with object := { s.aco.object with id := s.collision_object.id } } }
  let s : MainState := { s with aco := { s.aco with link_name := "robotiq_85_right_finger_tip_link" } }
  let s : MainState := { s with aco :=
    { s.aco with touch_links := s.aco.touch_links ++ ["robotiq_85_left_finger_tip_link"] } }
  let s : MainState :=
    { s with aco := { s.aco with object := { s.aco.object with operation := Operation.ADD } } }
  s.emit (Call.applyAttachedCollisionObject s.aco)

/-- Lines 155-164 of `main`: 6. Move the TCP above the plate. -/
def step6 (env : Env) (s : MainState) : MainState :=
  let s : MainState := { s with target_pose1 := { s.target_pose1 with
    position := { s.target_pose1.position with z := s.target_pose1.position.z + 0.2 } } }
  let s : MainState := { s with target_pose1 := { s.target_pose1 with
    position := { s.target_pose1.position with x := s.target_pose1.position.x - 0.6 } } }
  let s := s.emit (Call.setPoseTarget PLANNING_GROUP_ARM s.target_pose1)
  let s := s.emit (Call.plan PLANNING_GROUP_ARM)
  let s : MainState := { s with my_plan := (env.planReply 5).plan }
  let s : MainState := { s with success := decide ((env.planReply 5).code = SUCCESS) }
  let s := s.emit (Call.rosInfo (statusLine s.success))
  s.emit (Call.move PLANNING_GROUP_ARM)

/-- Lines 166-174 of `main`: 7. Lower the TCP above the plate. -/
def step7 (env : Env) (s : MainState) : MainState :=
  let s : MainState := { s with target_pose1 := { s.target_pose1 with
    position := { s.target_pose1.position with z := s.target_pose1.position.z - 0.14 } } }
  let s := s.emit (Call.setPoseTarget PLANNING_GROUP_ARM s.target_pose1)
  let s := s.emit (Call.plan PLANNING_GROUP_ARM)
  let s : MainState := { s with my_plan := (env.planReply 6).plan }
  let s : MainState := { s with success := decide ((env.planReply 6).code = SUCCESS) }
  let s := s.emit (Call.rosInfo (statusLine s.success))
  s.emit (Call.move PLANNING_GROUP_ARM)

/-- Lines 176-183 of `main`: 8. Open the gripper. -/
def step8 (env : Env) (s : MainState) : MainState :=
  let s := s.emit (Call.getNamedTargetValues PLANNING_GROUP_GRIPPER "open")
  let s := s.emit (Call.setJointValueTarget PLANNING_GROUP_GRIPPER
    (env.namedTargetValues PLANNING_GROUP_GRIPPER "open"))
  let s := s.emit (Call.plan PLANNING_GROUP_GRIPPER)
  let s : MainState := { s with my_plan_gripper := (env.planReply 7).plan }
  let s : MainState := { s with success := decide ((env.planReply 7).code = SUCCESS) }
  let s := s.emit (Call.rosInfo (statusLine s.success))
  s.emit (Call.move PLANNING_GROUP_GRIPPER)

/-- Lines 185-192 of `main`: remove the object, shut down, return.  On return the locals of
`main` are destroyed; the scene lock `ls` declared at line 69 is one of them. -/
def removeObject (s : MainState) : MainState :=
  let s := s.emit (Call.rosInfo "Remove the object from the world")
  let s : MainState := { s with object_ids := [] }
  let s : MainState := { s with object_ids := s.object_ids ++ [s.collision_object.id] }
  let s := s.emit (Call.removeCollisionObjects s.object_ids)
  let s := s.emit Call.rosShutdown
  s.emit Call.unlockSceneWrite

/-- Function `main`: the statements of the source in their order. -/
def main (env : Env) : MainState :=
  let s : MainState := {}
  let s := startUp s
  let s := addObject env s
  let s := allowCollisions env s
  let s := listGroups env s
  let s := step1 env s
  let s := step2 env s
  let s := step3 env s
  let s := step4 env s
  let s := step5 env s
  let s := attachObject s
  let s := step6 env s
  let s := step7 env s
  let s := step8 env s
  removeObject s

/-! ## The values and calls of the script, written out -/

/-- Calls of one planning step once its target is set: `plan`, the status line, `move`. -/
def planLogMove (group : String) (code : MoveItErrorCode) : List Call :=
  [Call.plan group, Call.rosInfo (statusLine (decide (code = SUCCESS))), Call.move group]

/-- Value of `collision_object` from line 57 on. -/
def blueBox (env : Env) : CollisionObject :=
  { frame_id := env.planningFrame, id := "blue_box", primitives := [primitive],
    primitive_poses := [box_pose], operation := Operation.ADD }

/-- Value of `acm` after the two `setEntry` calls of lines 71-72. -/
def permitted (env : Env) : AllowedCollisionMatrix :=
  (env.initialMatrix.setEntry "blue_box" "robotiq_85_left_finger_tip_link" true).setEntry
    "blue_box" "robotiq_85_right_finger_tip_link" true

/-- Value of `diff_scene` at line 78. -/
def permittedDiff (env : Env) : PlanningScene :=
  { is_diff := true, allowed_collision_matrix := permitted env }

/-- Value of `aco` at line 153. -/
def attachedBox : AttachedCollisionObject :=
  { link_name := "robotiq_85_right_finger_tip_link",
    object := { id := "blue_box", operation := Operation.ADD },
    touch_links := ["robotiq_85_left_finger_tip_link"] }

/-- Value of `target_pose1` at the `setPoseTarget` of each of the steps 2, 4, 6 and 7. -/
def targetAt (env : Env) : Nat → Pose
  | 2 => { position := { x := 0.3, y := 0.5, z := 0.2 },
           orientation := env.currentPose.pose.orientation }
  | 4 => { position := { x := 0.3, y := 0.5, z := 0.2 - 0.2 },
           orientation := env.currentPose.pose.orientation }
  | 6 => { position := { x := 0.3 - 0.6, y := 0.5, z := 0.2 - 0.2 + 0.2 },
           orientation := env.currentPose.pose.orientation }
  | 7 => { position := { x := 0.3 - 0.6, y := 0.5, z := 0.2 - 0.2 + 0.2 - 0.14 },
           orientation := env.currentPose.pose.orientation }
  | _ => {}

/-- Calls of lines 11-34. -/
def callsStartUp : List Call :=
  [ Call.rosInit "move_group_interface_tutorial",
    Call.nodeHandle,
    Call.asyncSpinner 1,
    Call.spinnerStart,
    Call.moveGroupInterface "ur5_arm",
    Call.moveGroupInterface "gripper",
    Call.planningSceneInterface,
    Call.robotModelLoader "robot_description",
    Call.planningSceneMonitor ]

/-- Calls of lines 36-66. -/
def callsAddObject (env : Env) : List Call :=
  [ Call.getPlanningFrame "ur5_arm",
    Call.applyCollisionObjects [blueBox env],
    Call.rosInfo "Add an object into the world",
    Call.sleep 0.1 ]

/-- Calls of lines 70-80, issued after the lock of line 69 is taken. -/
def callsPermit (env : Env) : List Call :=
  [ Call.getAllowedCollisionMatrixNonConst,
    Call.setEntry "blue_box" "robotiq_85_left_finger_tip_link" true,
    Call.setEntry "blue_box" "robotiq_85_right_finger_tip_link" true,
    Call.cout "\nAllowedCollisionMatrix:\n",
    Call.acmPrint,
    Call.getPlanningSceneDiffMsg,
    Call.applyPlanningScene (permittedDiff env),
    Call.sleep 0.1 ]

/-- Calls of lines 82-85. -/
def callsListGroups (env : Env) : List Call :=
  [ Call.rosInfo "Available Planning Groups:",
    Call.getJointModelGroupNames "ur5_arm",
    Call.getJointModelGroupNames "ur5_arm",
    Call.cout (copyToCout env.jointModelGroupNames) ]

/-- Calls of step 1 (lines 89-96). -/
def callsStep1 (env : Env) : List Call :=
  Call.getNamedTargetValues "ur5_arm" "home" ::
  Call.setJointValueTarget "ur5_arm" (env.namedTargetValues "ur5_arm" "home") ::
  planLogMove "ur5_arm" (env.planReply 0).code

/-- Calls of step 2 (lines 98-114). -/
def callsStep2 (env : Env) : List Call :=
  Call.getCurrentPose "ur5_arm" "ee_link" ::
  Call.setPoseTarget "ur5_arm" (targetAt env 2) ::
  planLogMove "ur5_arm" (env.planReply 1).code

/-- Calls of step 3 (lines 117-126). -/
def callsStep3 (env : Env) : List Call :=
  Call.getNamedTargetValues "gripper" "open" ::
  Call.setJointValueTarget "gripper" (env.namedTargetValues "gripper" "open") ::
  planLogMove "gripper" (env.planReply 2).code

/-- Calls of step 4 (lines 128-136). -/
def callsStep4 (env : Env) : List Call :=
  Call.setPoseTarget "ur5_arm" (targetAt env 4) ::
  planLogMove "ur5_arm" (env.planReply 3).code

/-- Calls of step 5 (lines 138-145). -/
def callsStep5 (env : Env) : List Call :=
  Call.getNamedTargetValues "gripper" "closed" ::
  Call.setJointValueTarget "gripper" (env.namedTargetValues "gripper" "closed") ::
  planLogMove "gripper" (env.planReply 4).code

/-- Calls of step 6 (lines 155-164). -/
def callsStep6 (env : Env) : List Call :=
  Call.setPoseTarget "ur5_arm" (targetAt env 6) ::
  planLogMove "ur5_arm" (env.planReply 5).code

/-- Calls of step 7 (lines 166-174). -/
def callsStep7 (env : Env) : List Call :=
  Call.setPoseTarget "ur5_arm" (targetAt env 7) ::
  planLogMove "ur5_arm" (env.planReply 6).code

/-- Calls of step 8 (lines 176-183). -/
def callsStep8 (env : Env) : List Call :=
  Call.getNamedTargetValues "gripper" "open" ::
  Call.setJointValueTarget "gripper" (env.namedTargetValues "gripper" "open") ::
  planLogMove "gripper" (env.planReply 7).code

/-- Calls of lines 185-190. -/
def callsRemoveObject : List Call :=
  [ Call.rosInfo "Remove the object from the world",
    Call.removeCollisionObjects ["blue_box"],
    Call.rosShutdown ]

/-- Calls issued between the start of `main` and the taking of the scene lock. -/
def callsBeforeLock (env : Env) : List Call :=
  callsStartUp ++ callsAddObject env

/-- Calls issued between the taking of the scene lock and its release. -/
def callsUnderLock (env : Env) : List Call :=
  callsPermit env ++ callsListGroups env ++ callsStep1 env ++ callsStep2 env ++ callsStep3 env
    ++ callsStep4 env ++ callsStep5 env ++ [Call.applyAttachedCollisionObject attachedBox]
    ++ callsStep6 env ++ callsStep7 env ++ callsStep8 env ++ callsRemoveObject

/-- The calls of `main` written out in order, for the replies of `env`. -/
def script (env : Env) : List Call :=
  callsBeforeLock env ++ Call.lockSceneWrite :: (callsUnderLock env ++ [Call.unlockSceneWrite])

/-! ## Reading a trace -/

/-- Log lines written with `ROS_INFO_NAMED`. -/
def Call.isLog : Call → Bool
  | Call.rosInfo _ => true
  | _ => false

/-- Planning requests and execution requests on a move group. -/
def Call.isPlanOrMove : Call → Bool
  | Call.plan _ => true
  | Call.move _ => true
  | Call.execute _ _ => true
  | _ => false

/-- Environment `env` with the eight replies of `plan` exchanged for `replies`. -/
def Env.withReplies (env : Env) (replies : Fin 8 → PlanReply) : Env :=
  { env with planReply := replies }

/-- Two calls differ at most in the text of a status log line. -/
def sameUpToStatus (a b : Call) : Prop :=
  a = b ∨ ∃ x y : Bool, a = Call.rosInfo (statusLine x) ∧ b = Call.rosInfo (statusLine y)

instance (a b : Call) : Decidable (sameUpToStatus a b) := by
  unfold sameUpToStatus
  infer_instance

/-- Calls that make up the phases of the script: scene edits, permission edits, target
settings and executions. -/
def Call.isPhaseCall : Call → Bool
  | Call.applyCollisionObjects _ => true
  | Call.setEntry _ _ _ => true
  | Call.removeEntry _ _ => true
  | Call.applyPlanningScene _ => true
  | Call.getNamedTargetValues _ _ => true
  | Call.setJointValueTarget _ _ => true
  | Call.setPoseTarget _ _ => true
  | Call.move _ => true
  | Call.execute _ _ => true
  | Call.applyAttachedCollisionObject _ => true
  | Call.removeCollisionObjects _ => true
  | _ => false

/-- Permission and attachment operations: edits of the allowed-collision matrix, the scene
diff that publishes them, and attached collision objects. -/
def Call.isPermissionOrAttachment : Call → Bool
  | Call.setEntry _ _ _ => true
  | Call.removeEntry _ _ => true
  | Call.applyPlanningScene _ => true
  | Call.applyAttachedCollisionObject _ => true
  | _ => false

/-- Edits of the allowed-collision matrix. -/
def Call.isMatrixEdit : Call → Bool
  | Call.setEntry _ _ _ => true
  | Call.removeEntry _ _ => true
  | _ => false

/-- Requests named by the lock discipline: planning, execution, attachment and removal. -/
def Call.isRequest : Call → Bool
  | Call.plan _ => true
  | Call.move _ => true
  | Call.execute _ _ => true
  | Call.applyAttachedCollisionObject _ => true
  | Call.removeCollisionObjects _ => true
  | _ => false

/-- Calls issued while the write lock on the scene is held; `held` says whether it is held
when the list starts.  The lock events themselves are not listed. -/
def issuedWhileLocked : Bool → List Call → List Call
  | _, [] => []
  | held, c :: cs =>
    if c = Call.lockSceneWrite then issuedWhileLocked true cs
    else if c = Call.unlockSceneWrite then issuedWhileLocked false cs
    else if held then c :: issuedWhileLocked held cs
    else issuedWhileLocked held cs

/-- Call that directly follows the first occurrence of `c`. -/
def nextAfter (c : Call) : List Call → Option Call
  | [] => none
  | x :: xs => if x = c then xs.head? else nextAfter c xs

/-- Target settings on a move group. -/
def Call.isSetTarget : Call → Bool
  | Call.setJointValueTarget _ _ => true
  | Call.setPoseTarget _ _ => true
  | _ => false

/-- Target settings, planning requests and executions on a move group. -/
def Call.isMotionCall : Call → Bool
  | Call.setJointValueTarget _ _ => true
  | Call.setPoseTarget _ _ => true
  | Call.plan _ => true
  | Call.move _ => true
  | Call.execute _ _ => true
  | _ => false

/-- Move group a call is made on, for the calls that are made on one. -/
def Call.group? : Call → Option String
  | Call.getPlanningFrame g => some g
  | Call.getJointModelGroupNames g => some g
  | Call.getNamedTargetValues g _ => some g
  | Call.setJointValueTarget g _ => some g
  | Call.setPoseTarget g _ => some g
  | Call.plan g => some g
  | Call.move g => some g
  | Call.execute g _ => some g
  | Call.getCurrentPose g _ => some g
  | _ => none

/-- A concrete environment: every planning request succeeds and fills the empty plan. -/
def sampleEnv : Env :=
  { planningFrame := "world",
    initialMatrix := {},
    jointModelGroupNames := ["ur5_arm", "gripper"],
    namedTargetValues := fun _ _ => [],
    currentPose := { frame_id := "world", pose := { orientation := { w := 1 } } },
    planReply := fun _ => { code := SUCCESS, plan := {} } }

/-- Pose handed to `setPoseTarget`. -/
def Call.poseTarget? : Call → Option Pose
  | Call.setPoseTarget _ p => some p
  | _ => none

/-- Reads of the current pose of a link. -/
def Call.isGetCurrentPose : Call → Bool
  | Call.getCurrentPose _ _ => true
  | _ => false

/-- Calls to the scene service (`PlanningSceneInterface`). -/
def Call.isSceneCall : Call → Bool
  | Call.applyCollisionObjects _ => true
  | Call.applyPlanningScene _ => true
  | Call.applyAttachedCollisionObject _ => true
  | Call.removeCollisionObjects _ => true
  | _ => false

/-- Planning requests. -/
def Call.isPlan : Call → Bool
  | Call.plan _ => true
  | _ => false

/-- Calls of `move()`. -/
def Call.isMove : Call → Bool
  | Call.move _ => true
  | _ => false

/-- Calls made on the move group `g`. -/
def Call.onGroup (g : String) (c : Call) : Bool :=
  decide (c.group? = some g)

/-- Calls that edit the objects of the scene. -/
def Call.isObjectEdit : Call → Bool
  | Call.applyCollisionObjects _ => true
  | Call.applyAttachedCollisionObject _ => true
  | Call.removeCollisionObjects _ => true
  | _ => false

/-- Attached collision object a call issues. -/
def Call.attached? : Call → Option AttachedCollisionObject
  | Call.applyAttachedCollisionObject a => some a
  | _ => none

/-! ## A model of the planning scene -/

/-- Planning scene of the motion service, as far as the script edits it: the collision objects
of the world, each stored under its id, and the objects attached to the robot. -/
structure Scene where
  world : List CollisionObject := []
  attached : List AttachedCollisionObject := []

/-- World object stored under `id`. -/
def Scene.find (s : Scene) (id : String) : Option CollisionObject :=
  s.world.find? (fun o => decide (o.id = id))

/-- Attached object stored under `id`. -/
def Scene.findAttached (s : Scene) (id : String) : Option AttachedCollisionObject :=
  s.attached.find? (fun a => decide (a.object.id = id))

/-- World without the object `id`. -/
def Scene.dropWorld (s : Scene) (id : String) : List CollisionObject :=
  s.world.filter (fun o => decide (o.id ≠ id))

/-- Attached objects without the object `id`. -/
def Scene.dropAttached (s : Scene) (id : String) : List AttachedCollisionObject :=
  s.attached.filter (fun a => decide (a.object.id ≠ id))

/-- One collision-object message applied to the world: ADD stores the object under its id,
REMOVE deletes it, APPEND extends the stored shapes, MOVE replaces the stored poses. -/
def Scene.applyCollisionObject (s : Scene) (o : CollisionObject) : Scene :=
  match o.operation with
  | Operation.ADD => { s with world := o :: s.dropWorld o.id }
  | Operation.REMOVE => { s with world := s.dropWorld o.id }
  | Operation.APPEND =>
    match s.find o.id with
    | some x => { s with world :=
        { x with primitives := x.primitives ++ o.primitives,
                 primitive_poses := x.primitive_poses ++ o.primitive_poses } :: s.dropWorld o.id }
    | none => { s with world := o :: s.dropWorld o.id }
  | Operation.MOVE =>
    match s.find o.id with
    | some x => { s with world := { x with primitive_poses := o.primitive_poses } :: s.dropWorld o.id }
    | none => s

/-- Attachment of the object described by `a` to the link `a.link_name`. -/
def Scene.attach (s : Scene) (a : AttachedCollisionObject) : Scene :=
  if a.object.primitives = [] then
    match s.find a.object.id with
    | some x =>
      { world := s.dropWorld a.object.id,
        attached := { a with object := x } :: s.dropAttached a.object.id }
    | none => s
  else
    { world := s.dropWorld a.object.id,
      attached := a :: s.dropAttached a.object.id }

/-- One attached-collision-object message: ADD and APPEND attach the object (a message without
shapes attaches the world object of that id, which leaves the world), REMOVE detaches it and
puts it back into the world. -/
def Scene.applyAttachedCollisionObject (s : Scene) (a : AttachedCollisionObject) : Scene :=
  match a.object.operation with
  | Operation.ADD => s.attach a
  | Operation.APPEND => s.attach a
  | Operation.REMOVE =>
    match s.findAttached a.object.id with
    | some b => { world := b.object :: s.dropWorld a.object.id,
                  attached := s.dropAttached a.object.id }
    | none => s
  | Operation.MOVE => s

/-- Effect of one call on the scene.  `removeCollisionObjects` deletes world objects only; a
scene diff is represented by its allowed-collision matrix and leaves the objects alone. -/
def Scene.step (s : Scene) : Call → Scene
  | Call.applyCollisionObjects objs => objs.foldl Scene.applyCollisionObject s
  | Call.applyAttachedCollisionObject a => s.applyAttachedCollisionObject a
  | Call.removeCollisionObjects ids =>
    { s with world := s.world.filter (fun o => decide (o.id ∉ ids)) }
  | _ => s

/-- Scene reached from `s0` by the calls of a trace. -/
def sceneAfter (s0 : Scene) (calls : List Call) : Scene :=
  calls.foldl Scene.step s0

/-! ## Stretches of the written-out trace -/

/-- Calls of `main` that precede step 5. -/
def callsBeforeStep5 (env : Env) : List Call :=
  callsBeforeLock env ++ Call.lockSceneWrite :: (callsPermit env ++ callsListGroups env
    ++ callsStep1 env ++ callsStep2 env ++ callsStep3 env ++ callsStep4 env)

/-- Calls of `main` that follow the attachment of the box. -/
def callsAfterAttach (env : Env) : List Call :=
  callsStep6 env ++ callsStep7 env ++ callsStep8 env ++ callsRemoveObject
    ++ [Call.unlockSceneWrite]

/-- Calls of `main` up to the first target setting. -/
def callsBeforeStep1 (env : Env) : List Call :=
  callsBeforeLock env ++ Call.lockSceneWrite :: (callsPermit env ++ callsListGroups env
    ++ [Call.getNamedTargetValues "ur5_arm" "home"])

/-- Calls of `main` that precede the ADD of the box. -/
def callsBeforeAdd : List Call :=
  callsStartUp ++ [Call.getPlanningFrame "ur5_arm"]

/-- Calls of `main` between the ADD of the box and its attachment. -/
def callsAddToAttach (env : Env) : List Call :=
  Call.rosInfo "Add an object into the world" :: Call.sleep 0.1 :: Call.lockSceneWrite
    :: (callsPermit env ++ callsListGroups env ++ callsStep1 env ++ callsStep2 env
      ++ callsStep3 env ++ callsStep4 env ++ callsStep5 env)

/-- Calls of `main` between the attachment of the box and its removal. -/
def callsAttachToRemove (env : Env) : List Call :=
  callsStep6 env ++ callsStep7 env ++ callsStep8 env
    ++ [Call.rosInfo "Remove the object from the world"]

/-! ## The box in the scene model, and further stretches of the trace -/

/-- The box is absent from the world or stored as it was added. -/
def boxAsAdded (env : Env) (s : Scene) : Prop :=
  s.find "blue_box" = none ∨ s.find "blue_box" = some (blueBox env)

instance (env : Env) (s : Scene) : Decidable (boxAsAdded env s) := by
  unfold boxAsAdded
  infer_instance

/-- Calls that cannot alter a stored `blue_box`: no object edit, the attachment of line 153,
the removal of line 188. -/
def keepsBox (c : Call) : Prop :=
  c.isObjectEdit = false ∨ c = Call.applyAttachedCollisionObject attachedBox
    ∨ c = Call.removeCollisionObjects ["blue_box"]

instance (c : Call) : Decidable (keepsBox c) := by
  unfold keepsBox
  infer_instance

/-- Calls of `main` that follow the ADD of the box. -/
def callsAfterAdd (env : Env) : List Call :=
  callsAddToAttach env ++ Call.applyAttachedCollisionObject attachedBox
    :: (callsAttachToRemove env ++ Call.removeCollisionObjects ["blue_box"]
    :: [Call.rosShutdown, Call.unlockSceneWrite])

/-- Calls of `main` that precede the removal of the box. -/
def callsBeforeRemove (env : Env) : List Call :=
  callsBeforeAdd ++ Call.applyCollisionObjects [blueBox env]
    :: (callsAddToAttach env ++ Call.applyAttachedCollisionObject attachedBox
    :: callsAttachToRemove env)

/-- Calls of `main` that follow the read of the current pose. -/
def callsAfterCurrentPose (env : Env) : List Call :=
  (Call.setPoseTarget "ur5_arm" (targetAt env 2) :: planLogMove "ur5_arm" (env.planReply 1).code)
    ++ callsStep3 env ++ callsStep4 env ++ callsStep5 env
    ++ Call.applyAttachedCollisionObject attachedBox :: callsAfterAttach env

/-! ## A model of the move-group service -/

/-- Target a move group holds: joint values or a pose. -/
inductive Target where
  | joints (values : JointValues)
  | pose (p : Pose)
  deriving DecidableEq

/-- One planning request as the motion planner of the service receives it: its number among
the planning requests of the run, the group, and the target the group holds. -/
structure PlanningRequest where
  ordinal : Nat
  group : String
  target : Option Target
  deriving DecidableEq

/-- Motion planner of the service: the reply it gives to each planning request.  Replies may
differ from one request to the next, also for the same group and target. -/
abbrev Planner := PlanningRequest → PlanReply

/-- What an execution carries out for a planner reply: the planned trajectory, nothing when
planning failed. -/
def carriedOut (r : PlanReply) : Option Plan :=
  if r.code = SUCCESS then some r.plan else none

/-- State of the move-group service during a run: the targets set (newest first), the
planning requests received, the reply handed back by each `plan(p)` call (its plan is the
value stored in `p`), and what each execution call carried out. -/
structure Service where
  targets : List (String × Target) := []
  requests : List PlanningRequest := []
  filled : List (String × PlanReply) := []
  executed : List (String × Option Plan) := []

/-- Target the group `g` holds. -/
def Service.target? (s : Service) (g : String) : Option Target :=
  (s.targets.find? (fun e => decide (e.1 = g))).map Prod.snd

/-- Planning request the service issues next for the group `g`. -/
def Service.nextRequest (s : Service) (g : String) : PlanningRequest :=
  { ordinal := s.requests.length, group := g, target := s.target? g }

/-- Effect of one call on the move-group service, after the documentation of MoveIt's
`MoveGroupInterface` (the library is not part of the repository): `plan(p)` computes a plan
for the target of the group, stores it in `p` and executes nothing; `move()` plans for the
target of the group and executes the outcome of that planning request; `execute(p)` executes
the plan `p` it is given. -/
def Service.step (planner : Planner) (s : Service) : Call → Service
  | Call.setJointValueTarget g values =>
    { s with targets := (g, Target.joints values) :: s.targets }
  | Call.setPoseTarget g p =>
    { s with targets := (g, Target.pose p) :: s.targets }
  | Call.plan g =>
    { s with requests := s.requests ++ [s.nextRequest g],
             filled := s.filled ++ [(g, planner (s.nextRequest g))] }
  | Call.move g =>
    { s with requests := s.requests ++ [s.nextRequest g],
             executed := s.executed ++ [(g, carriedOut (planner (s.nextRequest g)))] }
  | Call.execute g p =>
    { s with executed := s.executed ++ [(g, some p)] }
  | _ => s

theorem startUp_eq (s : MainState) :
    startUp s = { s with trace := s.trace ++ callsStartUp } := by
  simp [startUp, MainState.emit, PLANNING_GROUP_ARM, PLANNING_GROUP_GRIPPER, callsStartUp]

theorem addObject_eq (env : Env) (s : MainState) :
    addObject env s = { s with
      trace := s.trace ++ callsAddObject env,
      collision_object := blueBox env } := by
  simp [addObject, MainState.emit, PLANNING_GROUP_ARM, blueBox, callsAddObject]

theorem allowCollisions_eq (env : Env) (s : MainState) :
    allowCollisions env s = { s with
      trace := s.trace ++ Call.lockSceneWrite :: callsPermit env,
      acm := permitted env,
      diff_scene := permittedDiff env } := by
  simp [allowCollisions, MainState.emit, permitted, permittedDiff, callsPermit]

theorem listGroups_eq (env : Env) (s : MainState) :
    listGroups env s = { s with trace := s.trace ++ callsListGroups env } := by
  simp [listGroups, MainState.emit, PLANNING_GROUP_ARM, callsListGroups]

theorem step1_eq (env : Env) (s : MainState) :
    step1 env s = { s with
      trace := s.trace ++ callsStep1 env,
      my_plan := (env.planReply 0).plan,
      success := decide ((env.planReply 0).code = SUCCESS) } := by
  simp [step1, MainState.emit, PLANNING_GROUP_ARM, planLogMove, callsStep1]

theorem step2_eq (env : Env) (s : MainState) :
    step2 env s = { s with
      trace := s.trace ++ callsStep2 env,
      current_pose := env.currentPose,
      target_pose1 := targetAt env 2,
      my_plan := (env.planReply 1).plan,
      success := decide ((env.planReply 1).code = SUCCESS) } := by
  simp [step2, MainState.emit, PLANNING_GROUP_ARM, planLogMove, targetAt, callsStep2]

theorem step3_eq (env : Env) (s : MainState) :
    step3 env s = { s with
      trace := s.trace ++ callsStep3 env,
      my_plan_gripper := (env.planReply 2).plan,
      success := decide ((env.planReply 2).code = SUCCESS) } := by
  simp [step3, MainState.emit, PLANNING_GROUP_GRIPPER, planLogMove, callsStep3]

theorem step4_eq (env : Env) (s : MainState) (h : s.target_pose1 = targetAt env 2) :
    step4 env s = { s with
      trace := s.trace ++ callsStep4 env,
      target_pose1 := targetAt env 4,
      my_plan := (env.planReply 3).plan,
      success := decide ((env.planReply 3).code = SUCCESS) } := by
  simp [step4, MainState.emit, PLANNING_GROUP_ARM, planLogMove, targetAt, h, callsStep4]

theorem step5_eq (env : Env) (s : MainState) :
    step5 env s = { s with
      trace := s.trace ++ callsStep5 env,
      my_plan_gripper := (env.planReply 4).plan,
      success := decide ((env.planReply 4).code = SUCCESS) } := by
  simp [step5, MainState.emit, PLANNING_GROUP_GRIPPER, planLogMove, callsStep5]

theorem attachObject_eq (s : MainState) (h : s.collision_object.id = "blue_box") :
    attachObject s = { s with
      trace := s.trace ++ [Call.applyAttachedCollisionObject attachedBox],
      aco := attachedBox } := by
  simp [attachObject, MainState.emit, attachedBox, h]

theorem step6_eq (env : Env) (s : MainState) (h : s.target_pose1 = targetAt env 4) :
    step6 env s = { s with
      trace := s.trace ++ callsStep6 env,
      target_pose1 := targetAt env 6,
      my_plan := (env.planReply 5).plan,
      success := decide ((env.planReply 5).code = SUCCESS) } := by
  simp [step6, MainState.emit, PLANNING_GROUP_ARM, planLogMove, targetAt, h, callsStep6]

theorem step7_eq (env : Env) (s : MainState) (h : s.target_pose1 = targetAt env 6) :
    step7 env s = { s with
      trace := s.trace ++ callsStep7 env,
      target_pose1 := targetAt env 7,
      my_plan := (env.planReply 6).plan,
      success := decide ((env.planReply 6).code = SUCCESS) } := by
  simp [step7, MainState.emit, PLANNING_GROUP_ARM, planLogMove, targetAt, h, callsStep7]

theorem step8_eq (env : Env) (s : MainState) :
    step8 env s = { s with
      trace := s.trace ++ callsStep8 env,
      my_plan_gripper := (env.planReply 7).plan,
      success := decide ((env.planReply 7).code = SUCCESS) } := by
  simp [step8, MainState.emit, PLANNING_GROUP_GRIPPER, planLogMove, callsStep8]

theorem removeObject_eq (s : MainState) (h : s.collision_object.id = "blue_box") :
    removeObject s = { s with
      trace := s.trace ++ (callsRemoveObject ++ [Call.unlockSceneWrite]),
      object_ids := ["blue_box"] } := by
  simp [removeObject, MainState.emit, h, callsRemoveObject]

/-- The state in which `main` returns. -/
theorem main_eq (env : Env) :
    main env =
    { trace := script env, acm := permitted env, collision_object := blueBox env,
      diff_scene := permittedDiff env,
      current_pose := env.currentPose, target_pose1 := targetAt env 7,
      success := decide ((env.planReply 7).code = SUCCESS),
      my_plan := (env.planReply 6).plan, my_plan_gripper := (env.planReply 7).plan,
      aco := attachedBox, object_ids := ["blue_box"] } := by
  unfold main
  simp only [startUp_eq, addObject_eq, allowCollisions_eq, listGroups_eq, step1_eq, step2_eq,
    step3_eq]
  rw [step4_eq env _ rfl, step5_eq, attachObject_eq _ rfl, step6_eq env _ rfl,
    step7_eq env _ rfl, step8_eq, removeObject_eq _ rfl]
  simp [script, callsBeforeLock, callsUnderLock]

theorem main_trace (env : Env) : (main env).trace = script env := by
  rw [main_eq]

/-! ## Facts about the written-out trace -/

theorem script_withReplies_filter (env : Env) (replies : Fin 8 → PlanReply) :
    (script (env.withReplies replies)).filter (fun c => !c.isLog)
      = (script env).filter (fun c => !c.isLog) := by
  simp [script, callsBeforeLock, callsUnderLock, callsStartUp, callsAddObject, callsPermit,
    callsListGroups, callsStep1, callsStep2, callsStep3, callsStep4, callsStep5, callsStep6,
    callsStep7, callsStep8, callsRemoveObject, planLogMove, Env.withReplies, Call.isLog, blueBox, permittedDiff, permitted, targetAt]

theorem script_withReplies_forall₂ (env : Env) (replies : Fin 8 → PlanReply) :
    List.Forall₂ sameUpToStatus (script (env.withReplies replies)) (script env) := by
  simp [script, callsBeforeLock, callsUnderLock, callsStartUp, callsAddObject, callsPermit,
    callsListGroups, callsStep1, callsStep2, callsStep3, callsStep4, callsStep5, callsStep6,
    callsStep7, callsStep8, callsRemoveObject, planLogMove, Env.withReplies, blueBox, permittedDiff, permitted, targetAt, sameUpToStatus]

theorem script_filter_isPlanOrMove (env : Env) :
    (script env).filter Call.isPlanOrMove
      = [Call.plan "ur5_arm", Call.move "ur5_arm", Call.plan "ur5_arm", Call.move "ur5_arm",
       Call.plan "gripper", Call.move "gripper", Call.plan "ur5_arm", Call.move "ur5_arm",
       Call.plan "gripper", Call.move "gripper", Call.plan "ur5_arm", Call.move "ur5_arm",
       Call.plan "ur5_arm", Call.move "ur5_arm", Call.plan "gripper", Call.move "gripper"] := by
  simp [script, callsBeforeLock, callsUnderLock, callsStartUp, callsAddObject, callsPermit,
    callsListGroups, callsStep1, callsStep2, callsStep3, callsStep4, callsStep5, callsStep6,
    callsStep7, callsStep8, callsRemoveObject, planLogMove, Call.isPlanOrMove]

theorem script_filter_isLog (env : Env) :
    (script env).filter Call.isLog
      = [Call.rosInfo "Add an object into the world",
         Call.rosInfo "Available Planning Groups:"]
        ++ ([0, 1, 2, 3, 4, 5, 6, 7] : List (Fin 8)).map (fun i =>
              Call.rosInfo ("Visualizing plan 1 (pose goal) "
                ++ (if (env.planReply i).code = SUCCESS then "" else "FAILED")))
        ++ [Call.rosInfo "Remove the object from the world"] := by
  simp [script, callsBeforeLock, callsUnderLock, callsStartUp, callsAddObject, callsPermit,
    callsListGroups, callsStep1, callsStep2, callsStep3, callsStep4, callsStep5, callsStep6,
    callsStep7, callsStep8, callsRemoveObject, planLogMove, Call.isLog, statusLine]

theorem script_filter_isPhaseCall (env : Env) :
    (script env).filter Call.isPhaseCall
      = [ Call.applyCollisionObjects [blueBox env],
        Call.setEntry "blue_box" "robotiq_85_left_finger_tip_link" true,
        Call.setEntry "blue_box" "robotiq_85_right_finger_tip_link" true,
        Call.applyPlanningScene (permittedDiff env),
        Call.getNamedTargetValues "ur5_arm" "home",
        Call.setJointValueTarget "ur5_arm" (env.namedTargetValues "ur5_arm" "home"),
        Call.move "ur5_arm",
        Call.setPoseTarget "ur5_arm" (targetAt env 2),
        Call.move "ur5_arm",
        Call.getNamedTargetValues "gripper" "open",
        Call.setJointValueTarget "gripper" (env.namedTargetValues "gripper" "open"),
        Call.move "gripper",
        Call.setPoseTarget "ur5_arm" (targetAt env 4),
        Call.move "ur5_arm",
        Call.getNamedTargetValues "gripper" "closed",
        Call.setJointValueTarget "gripper" (env.namedTargetValues "gripper" "closed"),
        Call.move "gripper",
        Call.applyAttachedCollisionObject (attachedBox),
        Call.setPoseTarget "ur5_arm" (targetAt env 6),
        Call.move "ur5_arm",
        Call.setPoseTarget "ur5_arm" (targetAt env 7),
        Call.move "ur5_arm",
        Call.getNamedTargetValues "gripper" "open",
        Call.setJointValueTarget "gripper" (env.namedTargetValues "gripper" "open"),
        Call.move "gripper",
        Call.removeCollisionObjects ["blue_box"] ] := by
  simp [script, callsBeforeLock, callsUnderLock, callsStartUp, callsAddObject, callsPermit,
    callsListGroups, callsStep1, callsStep2, callsStep3, callsStep4, callsStep5, callsStep6,
    callsStep7, callsStep8, callsRemoveObject, planLogMove, Call.isPhaseCall]

theorem targetAt_2 (env : Env) : targetAt env 2
    = { position := { x := 3 / 10, y := 1 / 2, z := 1 / 5 },
        orientation := env.currentPose.pose.orientation } := by
  norm_num [targetAt]

theorem targetAt_4 (env : Env) : targetAt env 4
    = { position := { x := 3 / 10, y := 1 / 2, z := 0 },
        orientation := env.currentPose.pose.orientation } := by
  norm_num [targetAt]

theorem targetAt_6 (env : Env) : targetAt env 6
    = { position := { x := -3 / 10, y := 1 / 2, z := 1 / 5 },
        orientation := env.currentPose.pose.orientation } := by
  norm_num [targetAt]

theorem targetAt_7 (env : Env) : targetAt env 7
    = { position := { x := -3 / 10, y := 1 / 2, z := 3 / 50 },
        orientation := env.currentPose.pose.orientation } := by
  norm_num [targetAt]

theorem script_split_at_add (env : Env) :
    script env = (callsStartUp ++ [Call.getPlanningFrame "ur5_arm"])
      ++ Call.applyCollisionObjects [blueBox env]
      :: (Call.rosInfo "Add an object into the world" :: Call.sleep 0.1 :: Call.lockSceneWrite
      :: (callsUnderLock env ++ [Call.unlockSceneWrite])) := by
  simp [script, callsBeforeLock, callsAddObject]

theorem callsStartUp_no_permission :
    ∀ c ∈ callsStartUp ++ [Call.getPlanningFrame "ur5_arm"],
      c.isPermissionOrAttachment = false := by
  simp [callsStartUp, Call.isPermissionOrAttachment]

theorem callsUnderLock_filter_permission (env : Env) :
    (callsUnderLock env).filter Call.isPermissionOrAttachment
      = [Call.setEntry "blue_box" "robotiq_85_left_finger_tip_link" true,
         Call.setEntry "blue_box" "robotiq_85_right_finger_tip_link" true,
         Call.applyPlanningScene (permittedDiff env),
         Call.applyAttachedCollisionObject attachedBox] := by
  simp [script, callsBeforeLock, callsUnderLock, callsStartUp, callsAddObject, callsPermit,
    callsListGroups, callsStep1, callsStep2, callsStep3, callsStep4, callsStep5, callsStep6,
    callsStep7, callsStep8, callsRemoveObject, planLogMove, Call.isPermissionOrAttachment]

theorem permitted_left (env : Env) :
    (permitted env).getEntry "blue_box" "robotiq_85_left_finger_tip_link" = some true := by
  simp [permitted, AllowedCollisionMatrix.getEntry, AllowedCollisionMatrix.setEntry]

theorem permitted_right (env : Env) :
    (permitted env).getEntry "blue_box" "robotiq_85_right_finger_tip_link" = some true := by
  simp [permitted, AllowedCollisionMatrix.getEntry, AllowedCollisionMatrix.setEntry]

theorem script_applyPlanningScene (env : Env) (scene : PlanningScene)
    (h : Call.applyPlanningScene scene ∈ script env) : scene = permittedDiff env := by
  simpa [script, callsBeforeLock, callsUnderLock, callsStartUp, callsAddObject, callsPermit,
    callsListGroups, callsStep1, callsStep2, callsStep3, callsStep4, callsStep5, callsStep6,
    callsStep7, callsStep8, callsRemoveObject, planLogMove] using h

theorem script_filter_isMatrixEdit (env : Env) :
    (script env).filter Call.isMatrixEdit
      = [Call.setEntry "blue_box" "robotiq_85_left_finger_tip_link" true,
         Call.setEntry "blue_box" "robotiq_85_right_finger_tip_link" true] := by
  simp [script, callsBeforeLock, callsUnderLock, callsStartUp, callsAddObject, callsPermit,
    callsListGroups, callsStep1, callsStep2, callsStep3, callsStep4, callsStep5, callsStep6,
    callsStep7, callsStep8, callsRemoveObject, planLogMove, Call.isMatrixEdit]

theorem script_split_at_step5 (env : Env) :
    script env = callsBeforeStep5 env ++ callsStep5 env
      ++ Call.applyAttachedCollisionObject attachedBox :: callsAfterAttach env := by
  simp [script, callsBeforeStep5, callsAfterAttach, callsUnderLock]

theorem callsBeforeStep5_mem_left (env : Env) :
    Call.setEntry "blue_box" "robotiq_85_left_finger_tip_link" true ∈ callsBeforeStep5 env := by
  simp [callsBeforeStep5, callsPermit]

theorem callsBeforeStep5_mem_right (env : Env) :
    Call.setEntry "blue_box" "robotiq_85_right_finger_tip_link" true ∈ callsBeforeStep5 env := by
  simp [callsBeforeStep5, callsPermit]

theorem callsAfterAttach_no_matrix_edit (env : Env) :
    ∀ c ∈ Call.applyAttachedCollisionObject attachedBox :: callsAfterAttach env,
      c.isMatrixEdit = false := by
  simp [callsAfterAttach, callsStep6, callsStep7, callsStep8, callsRemoveObject, planLogMove,
    Call.isMatrixEdit]

theorem script_nextAfter_diff (env : Env) :
    nextAfter Call.getPlanningSceneDiffMsg (script env)
      = some (Call.applyPlanningScene (permittedDiff env)) := by
  simp [script, callsBeforeLock, callsUnderLock, callsStartUp, callsAddObject, callsPermit,
    callsListGroups, callsStep1, callsStep2, callsStep3, callsStep4, callsStep5, callsStep6,
    callsStep7, callsStep8, callsRemoveObject, planLogMove, nextAfter]

theorem script_getLast? (env : Env) : (script env).getLast? = some Call.unlockSceneWrite := by
  have h : script env
      = (callsBeforeLock env ++ Call.lockSceneWrite :: callsUnderLock env)
        ++ [Call.unlockSceneWrite] := by
    simp [script]
  rw [h, List.getLast?_concat]

theorem callsBeforeLock_lock_free (env : Env) :
    ∀ c ∈ callsBeforeLock env, c ≠ Call.lockSceneWrite ∧ c ≠ Call.unlockSceneWrite := by
  simp [callsBeforeLock, callsStartUp, callsAddObject]

theorem callsUnderLock_lock_free (env : Env) :
    ∀ c ∈ callsUnderLock env, c ≠ Call.lockSceneWrite ∧ c ≠ Call.unlockSceneWrite := by
  simp [script, callsBeforeLock, callsUnderLock, callsStartUp, callsAddObject, callsPermit,
    callsListGroups, callsStep1, callsStep2, callsStep3, callsStep4, callsStep5, callsStep6,
    callsStep7, callsStep8, callsRemoveObject, planLogMove]

theorem issuedWhileLocked_locked (l tail : List Call)
    (h : ∀ c ∈ l, c ≠ Call.lockSceneWrite ∧ c ≠ Call.unlockSceneWrite) :
    issuedWhileLocked true (l ++ tail) = l ++ issuedWhileLocked true tail := by
  induction l with
  | nil => rfl
  | cons a l ih =>
    have ha := h a (List.mem_cons_self a l)
    have hl := ih (fun c hc => h c (List.mem_cons_of_mem a hc))
    simp [issuedWhileLocked, ha.1, ha.2, hl]

theorem issuedWhileLocked_append (l tail : List Call)
    (h : ∀ c ∈ l, c ≠ Call.lockSceneWrite ∧ c ≠ Call.unlockSceneWrite) :
    issuedWhileLocked false (l ++ tail) = issuedWhileLocked false tail := by
  induction l with
  | nil => rfl
  | cons a l ih =>
    have ha := h a (List.mem_cons_self a l)
    have hl := ih (fun c hc => h c (List.mem_cons_of_mem a hc))
    simp [issuedWhileLocked, ha.1, ha.2, hl]

theorem script_issuedWhileLocked (env : Env) :
    issuedWhileLocked false (script env) = callsUnderLock env := by
  unfold script
  rw [issuedWhileLocked_append _ _ (callsBeforeLock_lock_free env)]
  have h := issuedWhileLocked_locked (callsUnderLock env) [Call.unlockSceneWrite]
    (callsUnderLock_lock_free env)
  have h1 : issuedWhileLocked false
      (Call.lockSceneWrite :: (callsUnderLock env ++ [Call.unlockSceneWrite]))
      = issuedWhileLocked true (callsUnderLock env ++ [Call.unlockSceneWrite]) := by
    rw [issuedWhileLocked, if_pos rfl]
  have h2 : issuedWhileLocked true [Call.unlockSceneWrite] = [] := by
    simp [issuedWhileLocked]
  rw [h1, h, h2, List.append_nil]

theorem callsBeforeLock_filter_isRequest (env : Env) :
    (callsBeforeLock env).filter Call.isRequest = [] := by
  simp [callsBeforeLock, callsStartUp, callsAddObject, Call.isRequest]

theorem callsUnderLock_filter_isRequest (env : Env) :
    (callsUnderLock env).filter Call.isRequest
      = [Call.plan "ur5_arm", Call.move "ur5_arm", Call.plan "ur5_arm", Call.move "ur5_arm",
         Call.plan "gripper", Call.move "gripper", Call.plan "ur5_arm", Call.move "ur5_arm",
         Call.plan "gripper", Call.move "gripper",
         Call.applyAttachedCollisionObject attachedBox,
         Call.plan "ur5_arm", Call.move "ur5_arm", Call.plan "ur5_arm", Call.move "ur5_arm",
         Call.plan "gripper", Call.move "gripper",
         Call.removeCollisionObjects ["blue_box"]] := by
  simp [script, callsBeforeLock, callsUnderLock, callsStartUp, callsAddObject, callsPermit,
    callsListGroups, callsStep1, callsStep2, callsStep3, callsStep4, callsStep5, callsStep6,
    callsStep7, callsStep8, callsRemoveObject, planLogMove, Call.isRequest]

theorem script_filter_isRequest (env : Env) :
    (script env).filter Call.isRequest = (callsUnderLock env).filter Call.isRequest := by
  simp [script, callsBeforeLock_filter_isRequest, Call.isRequest]

theorem script_blocks (env : Env) :
    script env = callsBeforeStep1 env
      ++ (Call.setJointValueTarget "ur5_arm" (env.namedTargetValues "ur5_arm" "home")
            :: planLogMove "ur5_arm" (env.planReply 0).code)
      ++ [Call.getCurrentPose "ur5_arm" "ee_link"]
      ++ (Call.setPoseTarget "ur5_arm" (targetAt env 2)
            :: planLogMove "ur5_arm" (env.planReply 1).code)
      ++ [Call.getNamedTargetValues "gripper" "open"]
      ++ (Call.setJointValueTarget "gripper" (env.namedTargetValues "gripper" "open")
            :: planLogMove "gripper" (env.planReply 2).code)
      ++ []
      ++ (Call.setPoseTarget "ur5_arm" (targetAt env 4)
            :: planLogMove "ur5_arm" (env.planReply 3).code)
      ++ [Call.getNamedTargetValues "gripper" "closed"]
      ++ (Call.setJointValueTarget "gripper" (env.namedTargetValues "gripper" "closed")
            :: planLogMove "gripper" (env.planReply 4).code)
      ++ [Call.applyAttachedCollisionObject attachedBox]
      ++ (Call.setPoseTarget "ur5_arm" (targetAt env 6)
            :: planLogMove "ur5_arm" (env.planReply 5).code)
      ++ []
      ++ (Call.setPoseTarget "ur5_arm" (targetAt env 7)
            :: planLogMove "ur5_arm" (env.planReply 6).code)
      ++ [Call.getNamedTargetValues "gripper" "open"]
      ++ (Call.setJointValueTarget "gripper" (env.namedTargetValues "gripper" "open")
            :: planLogMove "gripper" (env.planReply 7).code)
      ++ (callsRemoveObject ++ [Call.unlockSceneWrite]) := by
  simp [script, callsBeforeStep1, callsUnderLock, callsStep1, callsStep2, callsStep3, callsStep4,
    callsStep5, callsStep6, callsStep7, callsStep8]

theorem callsBeforeStep1_no_motion (env : Env) :
    ∀ c ∈ callsBeforeStep1 env, c.isMotionCall = false := by
  simp [callsBeforeStep1, callsBeforeLock, callsStartUp, callsAddObject, callsPermit,
    callsListGroups, Call.isMotionCall]

theorem callsRemoveObject_no_motion :
    ∀ c ∈ callsRemoveObject ++ [Call.unlockSceneWrite], c.isMotionCall = false := by
  simp [callsRemoveObject, Call.isMotionCall]

theorem script_setTarget_arm (env : Env) :
    ((script env).filter (fun c => c.isSetTarget && c.onGroup "ur5_arm")).length = 5 := by
  simp [script, callsBeforeLock, callsUnderLock, callsStartUp, callsAddObject, callsPermit,
    callsListGroups, callsStep1, callsStep2, callsStep3, callsStep4, callsStep5, callsStep6,
    callsStep7, callsStep8, callsRemoveObject, planLogMove, Call.isSetTarget, Call.onGroup, Call.group?]

theorem script_setTarget_gripper (env : Env) :
    ((script env).filter (fun c => c.isSetTarget && c.onGroup "gripper")).length = 3 := by
  simp [script, callsBeforeLock, callsUnderLock, callsStartUp, callsAddObject, callsPermit,
    callsListGroups, callsStep1, callsStep2, callsStep3, callsStep4, callsStep5, callsStep6,
    callsStep7, callsStep8, callsRemoveObject, planLogMove, Call.isSetTarget, Call.onGroup, Call.group?]

theorem script_setTarget_total (env : Env) :
    ((script env).filter Call.isSetTarget).length = 8 := by
  simp [script, callsBeforeLock, callsUnderLock, callsStartUp, callsAddObject, callsPermit,
    callsListGroups, callsStep1, callsStep2, callsStep3, callsStep4, callsStep5, callsStep6,
    callsStep7, callsStep8, callsRemoveObject, planLogMove, Call.isSetTarget]

theorem script_plan_arm (env : Env) :
    ((script env).filter (fun c => c.isPlan && c.onGroup "ur5_arm")).length = 5 := by
  simp [script, callsBeforeLock, callsUnderLock, callsStartUp, callsAddObject, callsPermit,
    callsListGroups, callsStep1, callsStep2, callsStep3, callsStep4, callsStep5, callsStep6,
    callsStep7, callsStep8, callsRemoveObject, planLogMove, Call.isPlan, Call.onGroup, Call.group?]

theorem script_plan_gripper (env : Env) :
    ((script env).filter (fun c => c.isPlan && c.onGroup "gripper")).length = 3 := by
  simp [script, callsBeforeLock, callsUnderLock, callsStartUp, callsAddObject, callsPermit,
    callsListGroups, callsStep1, callsStep2, callsStep3, callsStep4, callsStep5, callsStep6,
    callsStep7, callsStep8, callsRemoveObject, planLogMove, Call.isPlan, Call.onGroup, Call.group?]

theorem script_plan_total (env : Env) :
    ((script env).filter Call.isPlan).length = 8 := by
  simp [script, callsBeforeLock, callsUnderLock, callsStartUp, callsAddObject, callsPermit,
    callsListGroups, callsStep1, callsStep2, callsStep3, callsStep4, callsStep5, callsStep6,
    callsStep7, callsStep8, callsRemoveObject, planLogMove, Call.isPlan]

theorem script_move_arm (env : Env) :
    ((script env).filter (fun c => c.isMove && c.onGroup "ur5_arm")).length = 5 := by
  simp [script, callsBeforeLock, callsUnderLock, callsStartUp, callsAddObject, callsPermit,
    callsListGroups, callsStep1, callsStep2, callsStep3, callsStep4, callsStep5, callsStep6,
    callsStep7, callsStep8, callsRemoveObject, planLogMove, Call.isMove, Call.onGroup, Call.group?]

theorem script_move_gripper (env : Env) :
    ((script env).filter (fun c => c.isMove && c.onGroup "gripper")).length = 3 := by
  simp [script, callsBeforeLock, callsUnderLock, callsStartUp, callsAddObject, callsPermit,
    callsListGroups, callsStep1, callsStep2, callsStep3, callsStep4, callsStep5, callsStep6,
    callsStep7, callsStep8, callsRemoveObject, planLogMove, Call.isMove, Call.onGroup, Call.group?]

theorem script_move_total (env : Env) :
    ((script env).filter Call.isMove).length = 8 := by
  simp [script, callsBeforeLock, callsUnderLock, callsStartUp, callsAddObject, callsPermit,
    callsListGroups, callsStep1, callsStep2, callsStep3, callsStep4, callsStep5, callsStep6,
    callsStep7, callsStep8, callsRemoveObject, planLogMove, Call.isMove]

/-! ## Facts about the scene model -/

theorem sceneAfter_append (s : Scene) (l1 l2 : List Call) :
    sceneAfter s (l1 ++ l2) = sceneAfter (sceneAfter s l1) l2 := by
  simp [sceneAfter, List.foldl_append]

theorem sceneAfter_cons (s : Scene) (c : Call) (l : List Call) :
    sceneAfter s (c :: l) = sceneAfter (s.step c) l := rfl

theorem sceneAfter_nil (s : Scene) : sceneAfter s [] = s := rfl

theorem Scene.step_of_not_edit (s : Scene) (c : Call) (h : c.isObjectEdit = false) :
    s.step c = s := by
  cases c <;> first | rfl | simp [Call.isObjectEdit] at h

theorem sceneAfter_of_no_edit (s : Scene) (l : List Call)
    (h : ∀ c ∈ l, c.isObjectEdit = false) : sceneAfter s l = s := by
  induction l generalizing s with
  | nil => rfl
  | cons a l ih =>
    rw [sceneAfter_cons, Scene.step_of_not_edit s a (h a (List.mem_cons_self a l))]
    exact ih s (fun c hc => h c (List.mem_cons_of_mem a hc))

theorem find_dropWorld (s : Scene) (id : String) (att : List AttachedCollisionObject) :
    Scene.find { world := s.dropWorld id, attached := att } id = none := by
  simp [Scene.find, Scene.dropWorld]

theorem Scene.step_add (s : Scene) (env : Env) :
    s.step (Call.applyCollisionObjects [blueBox env])
      = { world := blueBox env :: s.dropWorld "blue_box", attached := s.attached } := by
  simp [Scene.step, Scene.applyCollisionObject, blueBox]

theorem Scene.find_step_add (s : Scene) (env : Env) :
    (s.step (Call.applyCollisionObjects [blueBox env])).find "blue_box" = some (blueBox env) := by
  rw [Scene.step_add]
  simp [Scene.find, blueBox]

theorem script_scene_split (env : Env) :
    script env = callsBeforeAdd ++ Call.applyCollisionObjects [blueBox env]
      :: (callsAddToAttach env ++ Call.applyAttachedCollisionObject attachedBox
      :: (callsAttachToRemove env ++ Call.removeCollisionObjects ["blue_box"]
      :: [Call.rosShutdown, Call.unlockSceneWrite])) := by
  simp [script, callsBeforeLock, callsUnderLock, callsBeforeAdd, callsAddToAttach,
    callsAttachToRemove, callsAddObject, callsRemoveObject]

theorem callsBeforeAdd_no_scene_call : ∀ c ∈ callsBeforeAdd, c.isSceneCall = false := by
  simp [callsBeforeAdd, callsStartUp, Call.isSceneCall]

theorem callsBeforeAdd_no_edit : ∀ c ∈ callsBeforeAdd, c.isObjectEdit = false := by
  simp [callsBeforeAdd, callsStartUp, Call.isObjectEdit]

theorem callsAddToAttach_no_edit (env : Env) :
    ∀ c ∈ callsAddToAttach env, c.isObjectEdit = false := by
  simp [callsAddToAttach, callsPermit, callsListGroups, callsStep1, callsStep2, callsStep3,
    callsStep4, callsStep5, planLogMove, Call.isObjectEdit]

theorem callsAttachToRemove_no_edit (env : Env) :
    ∀ c ∈ callsAttachToRemove env, c.isObjectEdit = false := by
  simp [callsAttachToRemove, callsStep6, callsStep7, callsStep8, planLogMove, Call.isObjectEdit]

theorem Scene.step_attach_some (s : Scene) (x : CollisionObject)
    (h : s.find "blue_box" = some x) :
    s.step (Call.applyAttachedCollisionObject attachedBox)
      = { world := s.dropWorld "blue_box",
          attached := { attachedBox with object := x } :: s.dropAttached "blue_box" } := by
  simp [Scene.step, Scene.applyAttachedCollisionObject, Scene.attach, attachedBox, h]

theorem Scene.step_attach_none (s : Scene) (h : s.find "blue_box" = none) :
    s.step (Call.applyAttachedCollisionObject attachedBox) = s := by
  simp [Scene.step, Scene.applyAttachedCollisionObject, Scene.attach, attachedBox, h]

theorem Scene.find_step_remove (s : Scene) :
    (s.step (Call.removeCollisionObjects ["blue_box"])).find "blue_box" = none := by
  simp [Scene.step, Scene.find]

theorem Scene.attached_step_remove (s : Scene) (ids : List String) :
    (s.step (Call.removeCollisionObjects ids)).attached = s.attached := rfl

theorem boxAsAdded_step (env : Env) (s : Scene) (c : Call) (hc : keepsBox c)
    (hs : boxAsAdded env s) : boxAsAdded env (s.step c) := by
  rcases hc with h | h | h
  · rw [Scene.step_of_not_edit s c h]; exact hs
  · subst h
    cases hf : s.find "blue_box" with
    | none => rw [Scene.step_attach_none s hf]; exact hs
    | some x =>
      rw [Scene.step_attach_some s x hf]
      exact Or.inl (find_dropWorld s "blue_box" _)
  · subst h
    exact Or.inl (Scene.find_step_remove s)

theorem boxAsAdded_sceneAfter (env : Env) (l : List Call) (hl : ∀ c ∈ l, keepsBox c)
    (s : Scene) (hs : boxAsAdded env s) : boxAsAdded env (sceneAfter s l) := by
  induction l generalizing s with
  | nil => exact hs
  | cons a l ih =>
    rw [sceneAfter_cons]
    exact ih (fun c hc => hl c (List.mem_cons_of_mem a hc)) _
      (boxAsAdded_step env s a (hl a (List.mem_cons_self a l)) hs)

theorem callsAfterAdd_keepsBox (env : Env) : ∀ c ∈ callsAfterAdd env, keepsBox c := by
  intro c hc
  simp only [callsAfterAdd, List.mem_append, List.mem_cons, List.not_mem_nil, or_false] at hc
  rcases hc with h | h | h | h | h | h
  · exact Or.inl (callsAddToAttach_no_edit env c h)
  · exact Or.inr (Or.inl h)
  · exact Or.inl (callsAttachToRemove_no_edit env c h)
  · exact Or.inr (Or.inr h)
  · subst h; exact Or.inl rfl
  · subst h; exact Or.inl rfl

theorem script_take_add (env : Env) (k : Nat) :
    (script env).take (11 + k)
      = (callsBeforeAdd ++ [Call.applyCollisionObjects [blueBox env]])
        ++ (callsAfterAdd env).take k := by
  have h : script env = (callsBeforeAdd ++ [Call.applyCollisionObjects [blueBox env]])
      ++ callsAfterAdd env := by
    rw [script_scene_split]; simp [callsAfterAdd]
  have hlen : (callsBeforeAdd ++ [Call.applyCollisionObjects [blueBox env]]).length = 11 := rfl
  rw [h, ← hlen, List.take_append]

theorem sceneAfter_add (env : Env) (s0 : Scene) :
    sceneAfter s0 (callsBeforeAdd ++ [Call.applyCollisionObjects [blueBox env]])
      = s0.step (Call.applyCollisionObjects [blueBox env]) := by
  rw [sceneAfter_append, sceneAfter_of_no_edit s0 _ callsBeforeAdd_no_edit, sceneAfter_cons,
    sceneAfter_nil]

theorem boxAsAdded_script_take (env : Env) (s0 : Scene) (k : Nat) :
    boxAsAdded env (sceneAfter s0 ((script env).take (11 + k))) := by
  rw [script_take_add, sceneAfter_append, sceneAfter_add]
  exact boxAsAdded_sceneAfter env _
    (fun c hc => callsAfterAdd_keepsBox env c (List.mem_of_mem_take hc)) _
    (Or.inr (Scene.find_step_add s0 env))

theorem script_filter_isSceneCall (env : Env) :
    (script env).filter Call.isSceneCall
      = [Call.applyCollisionObjects [blueBox env], Call.applyPlanningScene (permittedDiff env),
         Call.applyAttachedCollisionObject attachedBox,
         Call.removeCollisionObjects ["blue_box"]] := by
  simp [script, callsBeforeLock, callsUnderLock, callsStartUp, callsAddObject, callsPermit,
    callsListGroups, callsStep1, callsStep2, callsStep3, callsStep4, callsStep5, callsStep6,
    callsStep7, callsStep8, callsRemoveObject, planLogMove, Call.isSceneCall]

theorem script_split_at_remove (env : Env) :
    script env = (callsBeforeAdd ++ Call.applyCollisionObjects [blueBox env]
        :: (callsAddToAttach env ++ Call.applyAttachedCollisionObject attachedBox
        :: callsAttachToRemove env))
      ++ [Call.removeCollisionObjects ["blue_box"], Call.rosShutdown, Call.unlockSceneWrite] := by
  rw [script_scene_split]; simp

theorem blueBox_eq (env : Env) : blueBox env
    = { frame_id := env.planningFrame, id := "blue_box",
        primitives := [{ type := PrimitiveType.BOX, dimensions := [3 / 50, 3 / 50, 3 / 50] }],
        primitive_poses := [{ position := { x := 3 / 10, y := 1 / 2, z := -33 / 200 },
                              orientation := { x := 0, y := 0, z := 0, w := 1 } }],
        operation := Operation.ADD } := by
  norm_num [blueBox, primitive, box_pose, List.replicate, List.set]

theorem script_take_11 (env : Env) :
    ((script env).take 11).getLast? = some (Call.applyCollisionObjects [blueBox env]) := by
  have h := script_take_add env 0
  simp only [Nat.add_zero, List.take_zero, List.append_nil] at h
  rw [h, List.getLast?_concat]

theorem script_attach_mem (env : Env) (a : AttachedCollisionObject)
    (h : Call.applyAttachedCollisionObject a ∈ script env) : a = attachedBox := by
  simpa [script, callsBeforeLock, callsUnderLock, callsStartUp, callsAddObject, callsPermit,
    callsListGroups, callsStep1, callsStep2, callsStep3, callsStep4, callsStep5, callsStep6,
    callsStep7, callsStep8, callsRemoveObject, planLogMove] using h

theorem script_filterMap_attached (env : Env) :
    (script env).filterMap Call.attached? = [attachedBox] := by
  simp [script, callsBeforeLock, callsUnderLock, callsStartUp, callsAddObject, callsPermit,
    callsListGroups, callsStep1, callsStep2, callsStep3, callsStep4, callsStep5, callsStep6,
    callsStep7, callsStep8, callsRemoveObject, planLogMove, Call.attached?]

theorem script_split_attach (env : Env) :
    script env = callsBeforeStep5 env
      ++ (Call.getNamedTargetValues "gripper" "closed"
            :: Call.setJointValueTarget "gripper" (env.namedTargetValues "gripper" "closed")
            :: planLogMove "gripper" (env.planReply 4).code)
      ++ [Call.applyAttachedCollisionObject attachedBox]
      ++ (Call.setPoseTarget "ur5_arm" (targetAt env 6)
            :: planLogMove "ur5_arm" (env.planReply 5).code)
      ++ (callsStep7 env ++ callsStep8 env ++ callsRemoveObject ++ [Call.unlockSceneWrite]) := by
  rw [script_split_at_step5]
  simp [callsAfterAttach, callsStep5, callsStep6]

theorem script_split_remove (env : Env) :
    script env = callsBeforeRemove env
      ++ Call.removeCollisionObjects ["blue_box"] :: [Call.rosShutdown, Call.unlockSceneWrite] := by
  rw [script_scene_split]; simp [callsBeforeRemove]

theorem sceneAfter_callsBeforeRemove (env : Env) (s0 : Scene) :
    sceneAfter s0 (callsBeforeRemove env)
      = { world := (s0.step (Call.applyCollisionObjects [blueBox env])).dropWorld "blue_box",
          attached := { attachedBox with object := blueBox env }
            :: (s0.step (Call.applyCollisionObjects [blueBox env])).dropAttached "blue_box" } := by
  unfold callsBeforeRemove
  rw [sceneAfter_append, sceneAfter_of_no_edit s0 _ callsBeforeAdd_no_edit, sceneAfter_cons,
    sceneAfter_append, sceneAfter_of_no_edit _ _ (callsAddToAttach_no_edit env), sceneAfter_cons,
    sceneAfter_of_no_edit _ _ (callsAttachToRemove_no_edit env),
    Scene.step_attach_some _ _ (Scene.find_step_add s0 env)]

theorem findAttached_callsBeforeRemove (env : Env) (s0 : Scene) :
    (sceneAfter s0 (callsBeforeRemove env)).findAttached "blue_box"
      = some { attachedBox with object := blueBox env } := by
  rw [sceneAfter_callsBeforeRemove]
  simp [Scene.findAttached, blueBox]

theorem findAttached_script (env : Env) (s0 : Scene) :
    (sceneAfter s0 (script env)).findAttached "blue_box"
      = some { attachedBox with object := blueBox env } := by
  rw [script_split_remove, sceneAfter_append, sceneAfter_cons,
    sceneAfter_of_no_edit _ [Call.rosShutdown, Call.unlockSceneWrite]
      (by simp [Call.isObjectEdit])]
  have h := findAttached_callsBeforeRemove env s0
  simpa [Scene.findAttached, Scene.attached_step_remove] using h

theorem script_filterMap_poseTarget (env : Env) :
    (script env).filterMap Call.poseTarget?
      = [targetAt env 2, targetAt env 4, targetAt env 6, targetAt env 7] := by
  simp [script, callsBeforeLock, callsUnderLock, callsStartUp, callsAddObject, callsPermit,
    callsListGroups, callsStep1, callsStep2, callsStep3, callsStep4, callsStep5, callsStep6,
    callsStep7, callsStep8, callsRemoveObject, planLogMove, Call.poseTarget?]

theorem script_filter_isGetCurrentPose (env : Env) :
    (script env).filter Call.isGetCurrentPose = [Call.getCurrentPose "ur5_arm" "ee_link"] := by
  simp [script, callsBeforeLock, callsUnderLock, callsStartUp, callsAddObject, callsPermit,
    callsListGroups, callsStep1, callsStep2, callsStep3, callsStep4, callsStep5, callsStep6,
    callsStep7, callsStep8, callsRemoveObject, planLogMove, Call.isGetCurrentPose]

theorem script_split_current_pose (env : Env) :
    script env = callsBeforeStep1 env
      ++ (Call.setJointValueTarget "ur5_arm" (env.namedTargetValues "ur5_arm" "home")
            :: planLogMove "ur5_arm" (env.planReply 0).code)
      ++ Call.getCurrentPose "ur5_arm" "ee_link" :: callsAfterCurrentPose env := by
  simp [script, callsBeforeStep1, callsUnderLock, callsAfterCurrentPose, callsAfterAttach,
    callsStep1, callsStep2]

theorem callsBeforeStep1_getLast? (env : Env) :
    (callsBeforeStep1 env).getLast? = some (Call.getNamedTargetValues "ur5_arm" "home") := by
  have h : callsBeforeStep1 env
      = (callsBeforeLock env ++ Call.lockSceneWrite :: (callsPermit env ++ callsListGroups env))
        ++ [Call.getNamedTargetValues "ur5_arm" "home"] := by
    simp [callsBeforeStep1]
  rw [h, List.getLast?_concat]

theorem callsBeforeStep1_no_move (env : Env) :
    (callsBeforeStep1 env).filter Call.isMove = [] := by
  simp [callsBeforeStep1, callsBeforeLock, callsStartUp, callsAddObject, callsPermit,
    callsListGroups, Call.isMove]

/-! ## Facts about the move-group service -/

/-- C1: for every two assignments of the eight planning replies, the traces of `main` without
their log lines coincide; the whole traces agree call by call up to the text of a status line;
every `plan` is followed by its `move` (eight of each, in the order of the source) whatever
the replies are; the status line of step `i` reads "" after SUCCESS and "FAILED" after any
other code. -/
theorem C1_outcomes_only_change_log_text (env : Env) (replies : Fin 8 → PlanReply) :
    ((main (env.withReplies replies)).trace.filter (fun c => !c.isLog)
        = (main env).trace.filter (fun c => !c.isLog))
    ∧ List.Forall₂ sameUpToStatus (main (env.withReplies replies)).trace (main env).trace
    ∧ (main env).trace.filter Call.isPlanOrMove
      = [Call.plan "ur5_arm", Call.move "ur5_arm", Call.plan "ur5_arm", Call.move "ur5_arm",
       Call.plan "gripper", Call.move "gripper", Call.plan "ur5_arm", Call.move "ur5_arm",
       Call.plan "gripper", Call.move "gripper", Call.plan "ur5_arm", Call.move "ur5_arm",
       Call.plan "ur5_arm", Call.move "ur5_arm", Call.plan "gripper", Call.move "gripper"]
    ∧ (main env).trace.filter Call.isLog
        = [Call.rosInfo "Add an object into the world",
           Call.rosInfo "Available Planning Groups:"]
          ++ ([0, 1, 2, 3, 4, 5, 6, 7] : List (Fin 8)).map (fun i =>
                Call.rosInfo ("Visualizing plan 1 (pose goal) "
                  ++ (if (env.planReply i).code = SUCCESS then "" else "FAILED")))
          ++ [Call.rosInfo "Remove the object from the world"] := by
  rw [main_trace, main_trace]
  exact ⟨script_withReplies_filter env replies, script_withReplies_forall₂ env replies,
    script_filter_isPlanOrMove env, script_filter_isLog env⟩

/-! ## C2: the order of the phases -/

/-- C2: the phase calls of `main` are, in this order: apply `blue_box` with ADD; the two
allowed-collision entries and the scene diff; arm to the preset "home"; arm to the pose above
the box; gripper to "open"; arm down to the box; gripper to "closed"; the attached collision
object; arm to the pose above the plate; arm lowered; gripper to "open"; removal of
`blue_box`.  No permission or attachment call precedes the ADD of `blue_box`, four follow it. -/
theorem C2_phase_order (env : Env) :
    (main env).trace.filter Call.isPhaseCall
      = [ Call.applyCollisionObjects [(main env).collision_object],
        Call.setEntry "blue_box" "robotiq_85_left_finger_tip_link" true,
        Call.setEntry "blue_box" "robotiq_85_right_finger_tip_link" true,
        Call.applyPlanningScene ((main env).diff_scene),
        Call.getNamedTargetValues "ur5_arm" "home",
        Call.setJointValueTarget "ur5_arm" (env.namedTargetValues "ur5_arm" "home"),
        Call.move "ur5_arm",
        Call.setPoseTarget "ur5_arm" (targetAt env 2),
        Call.move "ur5_arm",
        Call.getNamedTargetValues "gripper" "open",
        Call.setJointValueTarget "gripper" (env.namedTargetValues "gripper" "open"),
        Call.move "gripper",
        Call.setPoseTarget "ur5_arm" (targetAt env 4),
        Call.move "ur5_arm",
        Call.getNamedTargetValues "gripper" "closed",
        Call.setJointValueTarget "gripper" (env.namedTargetValues "gripper" "closed"),
        Call.move "gripper",
        Call.applyAttachedCollisionObject ((main env).aco),
        Call.setPoseTarget "ur5_arm" (targetAt env 6),
        Call.move "ur5_arm",
        Call.setPoseTarget "ur5_arm" (targetAt env 7),
        Call.move "ur5_arm",
        Call.getNamedTargetValues "gripper" "open",
        Call.setJointValueTarget "gripper" (env.namedTargetValues "gripper" "open"),
        Call.move "gripper",
        Call.removeCollisionObjects ["blue_box"] ]
    ∧ (main env).collision_object.id = "blue_box"
    ∧ (main env).collision_object.operation = Operation.ADD
    ∧ (main env).aco.object.id = "blue_box"
    ∧ (targetAt env 2).position = { x := 3 / 10, y := 1 / 2, z := 1 / 5 }
    ∧ (targetAt env 4).position = { x := 3 / 10, y := 1 / 2, z := 0 }
    ∧ (targetAt env 6).position = { x := -3 / 10, y := 1 / 2, z := 1 / 5 }
    ∧ (targetAt env 7).position = { x := -3 / 10, y := 1 / 2, z := 3 / 50 }
    ∧ ∃ before after : List Call,
        (main env).trace
          = before ++ Call.applyCollisionObjects [(main env).collision_object] :: after
        ∧ (∀ c ∈ before, c.isPermissionOrAttachment = false)
        ∧ (after.filter Call.isPermissionOrAttachment).length = 4 := by
  rw [main_eq]
  refine ⟨script_filter_isPhaseCall env, rfl, rfl, rfl, ?_, ?_, ?_, ?_,
    callsStartUp ++ [Call.getPlanningFrame "ur5_arm"],
    Call.rosInfo "Add an object into the world" :: Call.sleep 0.1 :: Call.lockSceneWrite ::
      (callsUnderLock env ++ [Call.unlockSceneWrite]),
    script_split_at_add env, callsStartUp_no_permission, ?_⟩
  · rw [targetAt_2]
  · rw [targetAt_4]
  · rw [targetAt_6]
  · rw [targetAt_7]
  · simp [callsUnderLock_filter_permission, Call.isPermissionOrAttachment]

/-! ## C3: the two permitted collisions -/

/-- C3: the matrix read back right after the permission step, and the matrix at the end of
`main`, hold the entries (blue_box, left finger tip) and (blue_box, right finger tip), both
allowed, whatever the matrix held before; the only edits of the matrix in the whole trace are
the two `setEntry(..., true)` calls, and both come before the gripper is sent to "closed". -/
theorem C3_permitted_entries (env : Env) :
    (∀ scene, Call.applyPlanningScene scene ∈ (main env).trace →
        scene.allowed_collision_matrix.getEntry "blue_box" "robotiq_85_left_finger_tip_link"
          = some true
        ∧ scene.allowed_collision_matrix.getEntry "blue_box" "robotiq_85_right_finger_tip_link"
          = some true)
    ∧ (main env).acm.getEntry "blue_box" "robotiq_85_left_finger_tip_link" = some true
    ∧ (main env).acm.getEntry "blue_box" "robotiq_85_right_finger_tip_link" = some true
    ∧ (main env).trace.filter Call.isMatrixEdit
        = [Call.setEntry "blue_box" "robotiq_85_left_finger_tip_link" true,
           Call.setEntry "blue_box" "robotiq_85_right_finger_tip_link" true]
    ∧ ∃ before after : List Call,
        (main env).trace
          = before ++ (Call.getNamedTargetValues "gripper" "closed"
              :: Call.setJointValueTarget "gripper" (env.namedTargetValues "gripper" "closed")
              :: planLogMove "gripper" (env.planReply 4).code) ++ after
        ∧ Call.setEntry "blue_box" "robotiq_85_left_finger_tip_link" true ∈ before
        ∧ Call.setEntry "blue_box" "robotiq_85_right_finger_tip_link" true ∈ before
        ∧ (∀ c ∈ after, c.isMatrixEdit = false) := by
  rw [main_eq]
  refine ⟨?_, permitted_left env, permitted_right env, script_filter_isMatrixEdit env,
    callsBeforeStep5 env, Call.applyAttachedCollisionObject attachedBox :: callsAfterAttach env,
    script_split_at_step5 env, callsBeforeStep5_mem_left env, callsBeforeStep5_mem_right env,
    callsAfterAttach_no_matrix_edit env⟩
  intro scene h
  rw [script_applyPlanningScene env scene h]
  exact ⟨permitted_left env, permitted_right env⟩

/-! ## C4: the scene lock -/

/-- C4, as stated, fails: in the run of `sampleEnv` the call that follows the read-back of the
diff is `applyPlanningScene`, not the release of the lock; the release is the last event of the
trace, and planning, execution, attachment and removal are all issued while the lock is held. -/
theorem C4_lock_not_released_after_diff :
    nextAfter Call.getPlanningSceneDiffMsg (main sampleEnv).trace
        = some (Call.applyPlanningScene (main sampleEnv).diff_scene)
    ∧ nextAfter Call.getPlanningSceneDiffMsg (main sampleEnv).trace ≠ some Call.unlockSceneWrite
    ∧ (main sampleEnv).trace.getLast? = some Call.unlockSceneWrite
    ∧ Call.plan "ur5_arm" ∈ issuedWhileLocked false (main sampleEnv).trace
    ∧ Call.move "ur5_arm" ∈ issuedWhileLocked false (main sampleEnv).trace
    ∧ Call.applyAttachedCollisionObject (main sampleEnv).aco
        ∈ issuedWhileLocked false (main sampleEnv).trace
    ∧ Call.removeCollisionObjects ["blue_box"]
        ∈ issuedWhileLocked false (main sampleEnv).trace := by
  rw [main_eq]
  have hreq := callsUnderLock_filter_isRequest sampleEnv
  have hmem : ∀ c, c ∈ (callsUnderLock sampleEnv).filter Call.isRequest →
      c ∈ callsUnderLock sampleEnv := fun c hc => (List.mem_filter.mp hc).1
  rw [hreq] at hmem
  refine ⟨script_nextAfter_diff sampleEnv, ?_, script_getLast? sampleEnv, ?_, ?_, ?_, ?_⟩
  · rw [script_nextAfter_diff]; simp
  · rw [script_issuedWhileLocked]; exact hmem _ (by simp)
  · rw [script_issuedWhileLocked]; exact hmem _ (by simp)
  · rw [script_issuedWhileLocked]; exact hmem _ (by simp)
  · rw [script_issuedWhileLocked]; exact hmem _ (by simp)

/-- C4, amended: the write lock is taken once, right before the edit of the allowed-collision
matrix, and released once, as the last event of `main` (when the local `ls` goes out of scope
after `ros::shutdown()`).  No planning, execution, attachment or removal request is issued
before the lock is taken, and all eighteen of them are issued while it is held. -/
theorem C4_lock_held_until_return (env : Env) :
    ∃ before body rest : List Call,
      (main env).trace = before ++ Call.lockSceneWrite :: (body ++ [Call.unlockSceneWrite])
      ∧ (∀ c ∈ before, c ≠ Call.lockSceneWrite ∧ c ≠ Call.unlockSceneWrite)
      ∧ (∀ c ∈ body, c ≠ Call.lockSceneWrite ∧ c ≠ Call.unlockSceneWrite)
      ∧ issuedWhileLocked false (main env).trace = body
      ∧ before.filter Call.isRequest = []
      ∧ body.filter Call.isRequest = (main env).trace.filter Call.isRequest
      ∧ (body.filter Call.isRequest).length = 18
      ∧ body = [Call.getAllowedCollisionMatrixNonConst,
          Call.setEntry "blue_box" "robotiq_85_left_finger_tip_link" true,
          Call.setEntry "blue_box" "robotiq_85_right_finger_tip_link" true,
          Call.cout "\nAllowedCollisionMatrix:\n", Call.acmPrint, Call.getPlanningSceneDiffMsg,
          Call.applyPlanningScene (main env).diff_scene] ++ rest ++ [Call.rosShutdown] := by
  rw [main_eq]
  refine ⟨callsBeforeLock env, callsUnderLock env,
    Call.sleep 0.1 :: (callsListGroups env ++ callsStep1 env ++ callsStep2 env ++ callsStep3 env
      ++ callsStep4 env ++ callsStep5 env ++ [Call.applyAttachedCollisionObject attachedBox]
      ++ callsStep6 env ++ callsStep7 env ++ callsStep8 env
      ++ [Call.rosInfo "Remove the object from the world",
          Call.removeCollisionObjects ["blue_box"]]),
    rfl, callsBeforeLock_lock_free env, callsUnderLock_lock_free env,
    script_issuedWhileLocked env, callsBeforeLock_filter_isRequest env,
    (script_filter_isRequest env).symm, ?_, ?_⟩
  · rw [callsUnderLock_filter_isRequest]; rfl
  · simp [callsUnderLock, callsPermit, callsRemoveObject]

/-! ## C5: what the execution calls carry out -/

/-- C6: the trace of `main` is eight blocks `set target, plan, status line, move`, each on one
group and with nothing in between, separated by stretches that hold no target setting, no
`plan` and no `move`; so there are 8 target settings, 8 `plan` and 8 `move` calls, 5 of each
on `ur5_arm` and 3 of each on `gripper`. -/
theorem C6_motion_steps (env : Env) :
    (∃ g0 g1 g2 g3 g4 g5 g6 g7 g8 : List Call,
      (main env).trace = g0
        ++ (Call.setJointValueTarget "ur5_arm" (env.namedTargetValues "ur5_arm" "home")
              :: planLogMove "ur5_arm" (env.planReply 0).code)
        ++ g1
        ++ (Call.setPoseTarget "ur5_arm" (targetAt env 2)
              :: planLogMove "ur5_arm" (env.planReply 1).code)
        ++ g2
        ++ (Call.setJointValueTarget "gripper" (env.namedTargetValues "gripper" "open")
              :: planLogMove "gripper" (env.planReply 2).code)
        ++ g3
        ++ (Call.setPoseTarget "ur5_arm" (targetAt env 4)
              :: planLogMove "ur5_arm" (env.planReply 3).code)
        ++ g4
        ++ (Call.setJointValueTarget "gripper" (env.namedTargetValues "gripper" "closed")
              :: planLogMove "gripper" (env.planReply 4).code)
        ++ g5
        ++ (Call.setPoseTarget "ur5_arm" (targetAt env 6)
              :: planLogMove "ur5_arm" (env.planReply 5).code)
        ++ g6
        ++ (Call.setPoseTarget "ur5_arm" (targetAt env 7)
              :: planLogMove "ur5_arm" (env.planReply 6).code)
        ++ g7
        ++ (Call.setJointValueTarget "gripper" (env.namedTargetValues "gripper" "open")
              :: planLogMove "gripper" (env.planReply 7).code)
        ++ g8
      ∧ ∀ c ∈ g0 ++ g1 ++ g2 ++ g3 ++ g4 ++ g5 ++ g6 ++ g7 ++ g8, c.isMotionCall = false)
    ∧ (∀ (g : String) (code : MoveItErrorCode), planLogMove g code
        = [Call.plan g, Call.rosInfo (statusLine (decide (code = SUCCESS))), Call.move g])
    ∧ ((main env).trace.filter Call.isSetTarget).length = 8
    ∧ ((main env).trace.filter Call.isPlan).length = 8
    ∧ ((main env).trace.filter Call.isMove).length = 8
    ∧ ((main env).trace.filter (fun c => c.isSetTarget && c.onGroup "ur5_arm")).length = 5
    ∧ ((main env).trace.filter (fun c => c.isPlan && c.onGroup "ur5_arm")).length = 5
    ∧ ((main env).trace.filter (fun c => c.isMove && c.onGroup "ur5_arm")).length = 5
    ∧ ((main env).trace.filter (fun c => c.isSetTarget && c.onGroup "gripper")).length = 3
    ∧ ((main env).trace.filter (fun c => c.isPlan && c.onGroup "gripper")).length = 3
    ∧ ((main env).trace.filter (fun c => c.isMove && c.onGroup "gripper")).length = 3 := by
  rw [main_trace]
  refine ⟨⟨callsBeforeStep1 env, [Call.getCurrentPose "ur5_arm" "ee_link"],
    [Call.getNamedTargetValues "gripper" "open"], [],
    [Call.getNamedTargetValues "gripper" "closed"],
    [Call.applyAttachedCollisionObject attachedBox], [],
    [Call.getNamedTargetValues "gripper" "open"],
    callsRemoveObject ++ [Call.unlockSceneWrite], script_blocks env, ?_⟩,
    fun _ _ => rfl, script_setTarget_total env, script_plan_total env, script_move_total env,
    script_setTarget_arm env, script_plan_arm env, script_move_arm env,
    script_setTarget_gripper env, script_plan_gripper env, script_move_gripper env⟩
  intro c hc
  simp only [List.mem_append, List.mem_singleton, List.not_mem_nil, or_false] at hc
  rcases hc with ((((((h | h) | h) | h) | h) | h) | h)
  · exact callsBeforeStep1_no_motion env c h
  · subst h; rfl
  · subst h; rfl
  · subst h; rfl
  · subst h; rfl
  · subst h; rfl
  · exact callsRemoveObject_no_motion c (by simpa using h)

/-! ## C7: the obstacle as it is added -/

/-- C7: the ADD of `blue_box` is the first call to the scene service, and in the scene model,
whatever the scene held before, the object stored under `blue_box` after that call is the
one supplied: frame read from the arm group right before, one BOX of 0.06 x 0.06 x 0.06, position
(0.3, 0.5, 1.045 - 1.21 = -0.165), orientation w = 1 and x = y = z = 0. -/
theorem C7_obstacle_pose_after_add (env : Env) :
    (∃ before after : List Call,
      (main env).trace
        = before ++ Call.applyCollisionObjects [(main env).collision_object] :: after
      ∧ (∀ c ∈ before, c.isSceneCall = false)
      ∧ before.getLast? = some (Call.getPlanningFrame "ur5_arm")
      ∧ ∀ s0 : Scene,
          (sceneAfter s0 (before ++ [Call.applyCollisionObjects [(main env).collision_object]])).find
            "blue_box" = some (main env).collision_object)
    ∧ (main env).collision_object
        = { frame_id := env.planningFrame, id := "blue_box",
            primitives := [{ type := PrimitiveType.BOX, dimensions := [3 / 50, 3 / 50, 3 / 50] }],
            primitive_poses := [{ position := { x := 3 / 10, y := 1 / 2, z := -33 / 200 },
                                  orientation := { x := 0, y := 0, z := 0, w := 1 } }],
            operation := Operation.ADD }
    ∧ box_pose.position.z = 1.045 - 1.21
    ∧ ((1.045 : ℚ) - 1.21 = -0.165)
    ∧ ((0.06 : ℚ) = 3 / 50 ∧ (0.3 : ℚ) = 3 / 10 ∧ (0.5 : ℚ) = 1 / 2 ∧ (-0.165 : ℚ) = -33 / 200) := by
  rw [main_eq]
  refine ⟨⟨callsBeforeAdd, _, script_split_at_add env, callsBeforeAdd_no_scene_call,
      List.getLast?_concat _, ?_⟩,
    blueBox_eq env, rfl, by norm_num, by norm_num, by norm_num, by norm_num, by norm_num⟩
  intro s0
  rw [sceneAfter_add]
  exact Scene.find_step_add s0 env

/-! ## C8: created once, never mutated, deleted at the end -/

/-- C8: the calls of `main` to the scene service are the ADD of the one object `blue_box`, the
scene diff, the attachment and the removal of `["blue_box"]`; the attachment carries no shape
and no pose; in the scene model, at every point after the ADD the world either holds
`blue_box` exactly as added or does not hold it; the removal is directly followed by
`ros::shutdown()`. -/
theorem C8_created_once_deleted_at_end (env : Env) :
    (main env).trace.filter Call.isSceneCall
      = [Call.applyCollisionObjects [(main env).collision_object],
         Call.applyPlanningScene (main env).diff_scene,
         Call.applyAttachedCollisionObject (main env).aco,
         Call.removeCollisionObjects ["blue_box"]]
    ∧ (main env).collision_object.id = "blue_box"
    ∧ (main env).collision_object.operation = Operation.ADD
    ∧ (main env).aco.object.primitives = []
    ∧ (main env).aco.object.primitive_poses = []
    ∧ (main env).aco.object.operation = Operation.ADD
    ∧ ((main env).trace.take 11).getLast?
        = some (Call.applyCollisionObjects [(main env).collision_object])
    ∧ (∀ (s0 : Scene) (k : Nat),
        (sceneAfter s0 ((main env).trace.take (11 + k))).find "blue_box" = none
        ∨ (sceneAfter s0 ((main env).trace.take (11 + k))).find "blue_box"
            = some (main env).collision_object)
    ∧ ∃ before : List Call,
        (main env).trace = before
          ++ [Call.removeCollisionObjects ["blue_box"], Call.rosShutdown, Call.unlockSceneWrite] := by
  rw [main_eq]
  exact ⟨script_filter_isSceneCall env, rfl, rfl, rfl, rfl, rfl, script_take_11 env,
    fun s0 k => boxAsAdded_script_take env s0 k, _, script_split_at_remove env⟩

/-! ## C9: the attachment -/

/-- C9: `main` issues one attached collision object: id `blue_box` (the id of the object added
earlier), link `robotiq_85_right_finger_tip_link`, touch links exactly
`[robotiq_85_left_finger_tip_link]`, operation ADD; it is issued right after the `move` that
closes the gripper and right before the target setting of step 6; no attached collision object
with operation REMOVE is issued; in the scene model the box is attached when
`removeCollisionObjects` is called, and still attached when `main` returns. -/
theorem C9_attached_never_detached (env : Env) :
    (main env).trace.filterMap Call.attached? = [(main env).aco]
    ∧ (main env).aco
        = { link_name := "robotiq_85_right_finger_tip_link",
            object := { frame_id := "", id := "blue_box", primitives := [],
                        primitive_poses := [], operation := Operation.ADD },
            touch_links := ["robotiq_85_left_finger_tip_link"] }
    ∧ (main env).aco.object.id = (main env).collision_object.id
    ∧ (∃ before after : List Call,
        (main env).trace = before
          ++ (Call.getNamedTargetValues "gripper" "closed"
                :: Call.setJointValueTarget "gripper" (env.namedTargetValues "gripper" "closed")
                :: planLogMove "gripper" (env.planReply 4).code)
          ++ [Call.applyAttachedCollisionObject (main env).aco]
          ++ (Call.setPoseTarget "ur5_arm" (targetAt env 6)
                :: planLogMove "ur5_arm" (env.planReply 5).code)
          ++ after)
    ∧ (∀ a, Call.applyAttachedCollisionObject a ∈ (main env).trace →
        a.object.operation = Operation.ADD ∧ a.object.operation ≠ Operation.REMOVE)
    ∧ ∀ s0 : Scene, ∃ before after : List Call,
        (main env).trace = before ++ Call.removeCollisionObjects ["blue_box"] :: after
        ∧ (sceneAfter s0 before).findAttached "blue_box"
            = some { link_name := "robotiq_85_right_finger_tip_link",
                     object := (main env).collision_object,
                     touch_links := ["robotiq_85_left_finger_tip_link"] }
        ∧ (sceneAfter s0 (main env).trace).findAttached "blue_box"
            = some { link_name := "robotiq_85_right_finger_tip_link",
                     object := (main env).collision_object,
                     touch_links := ["robotiq_85_left_finger_tip_link"] } := by
  rw [main_eq]
  refine ⟨script_filterMap_attached env, rfl, rfl, ⟨_, _, script_split_attach env⟩, ?_, ?_⟩
  · intro a h
    rw [script_attach_mem env a h]
    exact ⟨rfl, by decide⟩
  · intro s0
    exact ⟨callsBeforeRemove env, _, script_split_remove env,
      findAttached_callsBeforeRemove env s0, findAttached_script env s0⟩

/-! ## C10: the four pose targets -/

/-- C10: the pose targets set on the arm are, in order, (0.3, 0.5, 0.2), (0.3, 0.5, 0),
(-0.3, 0.5, 0.2) and (-0.3, 0.5, 0.06), all with the orientation that the one
`getCurrentPose("ee_link")` call, issued right after the home move, returned; the first two
share x and y with the obstacle, and the grasp height 0 lies above the obstacle centre
z = -0.165. -/
theorem C10_pose_targets (env : Env) :
    (main env).trace.filterMap Call.poseTarget?
      = [ { position := { x := 3 / 10, y := 1 / 2, z := 1 / 5 },
            orientation := env.currentPose.pose.orientation },
          { position := { x := 3 / 10, y := 1 / 2, z := 0 },
            orientation := env.currentPose.pose.orientation },
          { position := { x := -3 / 10, y := 1 / 2, z := 1 / 5 },
            orientation := env.currentPose.pose.orientation },
          { position := { x := -3 / 10, y := 1 / 2, z := 3 / 50 },
            orientation := env.currentPose.pose.orientation } ]
    ∧ (main env).trace.filter Call.isGetCurrentPose = [Call.getCurrentPose "ur5_arm" "ee_link"]
    ∧ (∃ before after : List Call,
        (main env).trace = before
          ++ (Call.setJointValueTarget "ur5_arm" (env.namedTargetValues "ur5_arm" "home")
                :: planLogMove "ur5_arm" (env.planReply 0).code)
          ++ Call.getCurrentPose "ur5_arm" "ee_link" :: after
        ∧ before.getLast? = some (Call.getNamedTargetValues "ur5_arm" "home")
        ∧ before.filter Call.isMove = [])
    ∧ (main env).collision_object.primitive_poses
        = [{ position := { x := 3 / 10, y := 1 / 2, z := -33 / 200 },
             orientation := { x := 0, y := 0, z := 0, w := 1 } }]
    ∧ ((0.2 : ℚ) = 1 / 5 ∧ (0.2 : ℚ) - 0.2 = 0 ∧ (0.3 : ℚ) - 0.6 = -3 / 10
        ∧ (0.2 : ℚ) - 0.2 + 0.2 - 0.14 = 3 / 50 ∧ (0.06 : ℚ) = 3 / 50)
    ∧ ((-33 / 200 : ℚ) = -0.165 ∧ (-33 / 200 : ℚ) < 0) := by
  rw [main_eq]
  refine ⟨?_, script_filter_isGetCurrentPose env,
    ⟨callsBeforeStep1 env, _, script_split_current_pose env, callsBeforeStep1_getLast? env,
      callsBeforeStep1_no_move env⟩, ?_, ?_, ?_⟩
  · rw [script_filterMap_poseTarget, targetAt_2, targetAt_4, targetAt_6, targetAt_7]
  · show (blueBox env).primitive_poses = _
    rw [blueBox_eq]
  · norm_num
  · norm_num

end PickAndPlace
